import Mathlib

/-!
Verification of the x402-go EVM payment-exchange engine.

This file gives a shallow embedding, in Lean 4, of the EVM signature
authorization subsystem of the x402-go repository:

* byte-level ERC-6492 signature envelope handling
  (mechanisms/evm/erc6492.go),
* universal signature verification for EOA / EIP-1271 / ERC-6492
  (mechanisms/evm/verify_universal.go),
* the EIP-3009 capability probe with its process-wide cache
  (mechanisms/evm/utils.go),
* the facilitator scheme Verify and Settle
  (mechanisms/evm/exact/facilitator/scheme.go),
* the client scheme CreatePaymentPayload
  (mechanisms/evm/exact/client/scheme.go).

Modelling conventions:

* bytes are Nat values (< 256 by construction); byte strings are List Nat;
* keccak-based EIP-712 digests are idealized: a digest is represented by
  its preimage, a TypedData value in which address-typed fields are held
  in the canonical 20-byte form the Go hasher parses them into
  (go-ethereum apitypes parses address strings before hashing, so two
  strings denoting the same address yield the same digest);
* secp256k1 public-key recovery is an abstract parameter (CryptoModel);
  the theorems quantify over it, which is exactly the right strength for
  control-flow and agreement properties;
* blockchain RPC endpoints (getCode, readContract, writeContract,
  sendRawTransaction, waitForReceipt) are oracle records; every embedded
  operation additionally returns the list of RPC calls it performed, so
  that absence-of-call properties are expressible;
* randomness (the 32-byte nonce) and the clock (time.Now) are explicit
  inputs.
-/

namespace X402

/-- A byte string: list of byte values, each < 256 by construction. -/
abbrev Bytes := List Nat

/-- Every entry of the byte string is an actual byte value. -/
def ValidBytes (bs : Bytes) : Prop := ∀ b ∈ bs, b < 256

instance : DecidablePred ValidBytes := fun bs =>
  inferInstanceAs (Decidable (∀ b ∈ bs, b < 256))

/-- The 20-byte zero address ([20]byte zero value in Go). -/
def zero20 : Bytes := List.replicate 20 0

/-! ## Hex encoding and decoding (encoding/hex, common.FromHex) -/

/-- Lowercase hex digit characters, as used by Go hex.EncodeToString. -/
def hextable : String := "0123456789abcdef"

/-- The hex digit alphabet as a character list. -/
def hexDigitChars : List Char := hextable.toList

/-- The hex digit character for a value < 16. -/
def hexDigit (n : Nat) : Char := hexDigitChars.getD n '0'

/-- Lowercase hex encoding of a byte string (Go hex.EncodeToString). -/
def hexEncodeL : Bytes → List Char
  | [] => []
  | b :: rest => hexDigit (b / 16) :: hexDigit (b % 16) :: hexEncodeL rest

/-- Value of a hex digit character, accepting both cases (Go fromHexChar). -/
def hexCharVal? (c : Char) : Option Nat :=
  let n := c.toNat
  if 48 ≤ n ∧ n ≤ 57 then some (n - 48)
  else if 97 ≤ n ∧ n ≤ 102 then some (n - 87)
  else if 65 ≤ n ∧ n ≤ 70 then some (n - 55)
  else none

/-- Strict hex decoding: fails on odd length or any invalid character
(Go hex.DecodeString returning a non-nil error). -/
def hexDecodeL : List Char → Option Bytes
  | [] => some []
  | [_] => none
  | c1 :: c2 :: rest =>
    match hexCharVal? c1, hexCharVal? c2, hexDecodeL rest with
    | some h, some l, some bs => some ((h * 16 + l) :: bs)
    | _, _, _ => none

/-- Greedy hex decoding: returns the bytes decoded before the first bad or
incomplete pair, mirroring common.Hex2Bytes which ignores the error from
hex.DecodeString and keeps the successfully decoded leading bytes. -/
def hexDecodeGreedyL : List Char → Bytes
  | c1 :: c2 :: rest =>
    match hexCharVal? c1, hexCharVal? c2 with
    | some h, some l => (h * 16 + l) :: hexDecodeGreedyL rest
    | _, _ => []
  | _ => []

/-- Strip one leading "0x" (strings.TrimPrefix, case-sensitive). -/
def strip0x : List Char → List Char
  | '0' :: 'x' :: rest => rest
  | l => l

/-- Strip one leading "0x" or "0X" (common.has0xPrefix). -/
def strip0xOrX : List Char → List Char
  | '0' :: 'x' :: rest => rest
  | '0' :: 'X' :: rest => rest
  | l => l

/-- HexToBytes from mechanisms/evm/utils.go: trim an optional "0x" prefix
then strictly hex-decode. -/
def HexToBytes (s : String) : Option Bytes := hexDecodeL (strip0x s.toList)

/-- BytesToAddress semantics: keep the last 20 bytes, left-padding with
zeros when shorter (go-ethereum common.BytesToAddress). -/
def bytesToAddress (bs : Bytes) : Bytes :=
  if 20 ≤ bs.length then bs.drop (bs.length - 20)
  else List.replicate (20 - bs.length) 0 ++ bs

/-- Prepend a zero digit when the hex string has odd length
(go-ethereum common.FromHex). -/
def padEvenHex (cs : List Char) : List Char :=
  if cs.length % 2 = 1 then '0' :: cs else cs

/-- The canonical 20-byte form of an address string: the composite of
go-ethereum common.HexToAddress (FromHex then BytesToAddress). This is the
form address-typed EIP-712 message fields are reduced to before hashing,
so it is also the address notion used inside idealized digests. -/
def canonAddr (s : String) : Bytes :=
  bytesToAddress (hexDecodeGreedyL (padEvenHex (strip0xOrX s.toList)))

/-- Render a 20-byte address back to a hex string. Go renders via
common.Address.Hex with EIP-55 mixed case; the model uses lowercase, which
is indistinguishable downstream because every consumer reparses the string
case-insensitively into canonAddr form. -/
def addrToHexString (a : Bytes) : String := ⟨'0' :: 'x' :: hexEncodeL a⟩

/-! ## Decimal integers (math/big Int.SetString base 10 / Int.String) -/

/-- Decimal digit accumulation; fails at the first non-digit character. -/
def parseDigitsGo : List Char → Nat → Option Nat
  | [], acc => some acc
  | c :: rest, acc =>
    if 48 ≤ c.toNat ∧ c.toNat ≤ 57 then
      parseDigitsGo rest (acc * 10 + (c.toNat - 48))
    else none

/-- Parse a non-empty run of decimal digits. -/
def parseDigits (cs : List Char) : Option Nat :=
  match cs with
  | [] => none
  | _ => parseDigitsGo cs 0

/-- big.Int SetString with base 10: optional sign then decimal digits.
Returns none exactly when Go returns ok = false. -/
def parseBigInt (s : String) : Option Int :=
  match s.toList with
  | '+' :: rest => (parseDigits rest).map Int.ofNat
  | '-' :: rest => (parseDigits rest).map (fun n => -(n : Int))
  | l => (parseDigits l).map Int.ofNat

/-- Decimal digit character for a value < 10. -/
def decDigit (n : Nat) : Char := hexDigit n

/-- Decimal digits of a Nat, most significant first, with explicit fuel
(fuel ≥ n suffices; structural recursion keeps kernel reduction cheap). -/
def natDecDigits : Nat → Nat → List Char
  | 0, _ => []
  | fuel + 1, n =>
    if n < 10 then [decDigit n]
    else natDecDigits fuel (n / 10) ++ [decDigit (n % 10)]

/-- Decimal string of a Nat. -/
def natDecStr (n : Nat) : List Char := natDecDigits (n + 1) n

/-- big.Int String: decimal rendering with a leading minus sign for
negative values. -/
def decStr (v : Int) : String :=
  match v with
  | Int.ofNat n => ⟨natDecStr n⟩
  | Int.negSucc m => ⟨'-' :: natDecStr (m + 1)⟩

/-! ## Case-insensitive string comparison (strings.EqualFold) -/

/-- ASCII lowercase of one character. -/
def charLower (c : Char) : Char :=
  if 65 ≤ c.toNat ∧ c.toNat ≤ 90 then Char.ofNat (c.toNat + 32) else c

/-- ASCII uppercase of one character. -/
def charUpper (c : Char) : Char :=
  if 97 ≤ c.toNat ∧ c.toNat ≤ 122 then Char.ofNat (c.toNat - 32) else c

/-- strings.ToLower restricted to the ASCII range the protocol uses. -/
def lowerStr (s : String) : String := ⟨s.toList.map charLower⟩

/-- strings.ToUpper restricted to the ASCII range the protocol uses. -/
def upperStr (s : String) : String := ⟨s.toList.map charUpper⟩

/-- strings.EqualFold restricted to the ASCII range the protocol uses. -/
def eqFold (a b : String) : Bool := lowerStr a == lowerStr b

/-- Substring test helper: does the list start with the pattern. -/
def listStartsWith : List Char → List Char → Bool
  | _, [] => true
  | [], _ :: _ => false
  | a :: as, b :: bs => a == b && listStartsWith as bs

/-- Substring containment (strings.Contains). -/
def listHasSub : List Char → List Char → Bool
  | [], pat => pat.isEmpty
  | c :: rest, pat => listStartsWith (c :: rest) pat || listHasSub rest pat

/-- strings.Contains on strings. -/
def strContains (s pat : String) : Bool := listHasSub s.toList pat.toList

/-! ## ERC-6492 signature envelope (mechanisms/evm/erc6492.go) -/

/-- The 32-byte ERC-6492 magic suffix 0x6492...6492. -/
def erc6492MagicBytes : Bytes :=
  [0x64, 0x92, 0x64, 0x92, 0x64, 0x92, 0x64, 0x92,
   0x64, 0x92, 0x64, 0x92, 0x64, 0x92, 0x64, 0x92,
   0x64, 0x92, 0x64, 0x92, 0x64, 0x92, 0x64, 0x92,
   0x64, 0x92, 0x64, 0x92, 0x64, 0x92, 0x64, 0x92]

/-- IsERC6492Signature: the signature is at least 32 bytes long and its
last 32 bytes equal the magic value. -/
def IsERC6492Signature (sig : Bytes) : Bool :=
  if sig.length < 32 then false
  else sig.drop (sig.length - 32) == erc6492MagicBytes

/-- Parsed components of an ERC-6492 signature (ERC6492SignatureData). -/
structure ERC6492SignatureData where
  factory : Bytes
  factoryCalldata : Bytes
  innerSignature : Bytes
deriving DecidableEq, Repr

/-- Big-endian value of a word. -/
def wordToNat (w : Bytes) : Nat := w.foldl (fun acc b => acc * 256 + b) 0

/-- Read the 32-byte word at a byte offset, bounds-checked. -/
def readWord (bs : Bytes) (off : Nat) : Option Bytes :=
  if off + 32 ≤ bs.length then some ((bs.drop off).take 32) else none

/-- Read an ABI dynamic bytes value located at a byte offset: a 32-byte
length word followed by the data, both bounds-checked exactly as
go-ethereum lengthPrefixPointsTo / ReadBytes do. -/
def readDynBytes (bs : Bytes) (off : Nat) : Option Bytes :=
  match readWord bs off with
  | none => none
  | some lw =>
    let n := wordToNat lw
    if off + 32 + n ≤ bs.length then some ((bs.drop (off + 32)).take n) else none

/-- ABI-decode a top-level (address, bytes, bytes) tuple: three head words
(the address word and two tail offsets) followed by the two dynamic tails.
Mirrors abi.Arguments.Unpack for this argument list: any out-of-bounds
offset or truncated region is a decoding error (none). -/
def abiDecodeTriple (bs : Bytes) : Option (Bytes × Bytes × Bytes) :=
  match readWord bs 0, readWord bs 32, readWord bs 64 with
  | some w0, some w1, some w2 =>
    match readDynBytes bs (wordToNat w1), readDynBytes bs (wordToNat w2) with
    | some b1, some b2 => some (w0.drop 12, b1, b2)
    | _, _ => none
  | _, _, _ => none

/-- ParseERC6492Signature: a signature without the magic suffix is
returned unchanged as the inner signature with a zero factory and empty
calldata; a signature with the suffix has the suffix stripped and the
prefix ABI-decoded as (address factory, bytes factoryCalldata,
bytes innerSignature); a prefix that does not decode is an error. -/
def ParseERC6492Signature (sig : Bytes) : Except String ERC6492SignatureData :=
  if IsERC6492Signature sig = false then
    Except.ok ⟨zero20, [], sig⟩
  else
    match abiDecodeTriple (sig.take (sig.length - 32)) with
    | some (f, cd, inner) => Except.ok ⟨f, cd, inner⟩
    | none => Except.error "invalid ERC-6492 signature"

/-! ### ABI encoding of the (address, bytes, bytes) tuple
(used by tests and by smart-wallet clients producing wrapped signatures) -/

/-- Big-endian bytes of a value, fixed width k. -/
def natToBE : Nat → Nat → Bytes
  | 0, _ => []
  | k + 1, n => natToBE k (n / 256) ++ [n % 256]

/-- A 32-byte ABI word holding a value. -/
def word32 (n : Nat) : Bytes := natToBE 32 n

/-- Right-pad a byte string with zeros to a multiple of 32 bytes. -/
def pad32 (bs : Bytes) : Bytes :=
  bs ++ List.replicate ((32 - bs.length % 32) % 32) 0

/-- Canonical ABI encoding of (address, bytes, bytes), as produced by
abi.Arguments.Pack: address word, two tail offsets, then each tail as a
length word plus zero-padded data. -/
def abiEncodeTriple (f cd inner : Bytes) : Bytes :=
  (List.replicate 12 0 ++ f) ++
  word32 96 ++
  word32 (128 + (pad32 cd).length) ++
  word32 cd.length ++ pad32 cd ++
  word32 inner.length ++ pad32 inner

/-- Wrap an inner signature with ERC-6492 deployment information: the ABI
encoding of the triple followed by the magic suffix. -/
def wrap6492 (f cd inner : Bytes) : Bytes :=
  abiEncodeTriple f cd inner ++ erc6492MagicBytes

/-! ## Constants and network tables (mechanisms/evm/constants.go) -/

/-- Scheme identifier. -/
def SchemeExact : String := "exact"

/-- Error code for a cryptographic recovery mismatch, declared in
constants.go to match the TypeScript implementation. -/
def ErrInvalidSignature : String := "invalid_exact_evm_payload_signature"

/-- Error code for an undeployed smart wallet. -/
def ErrUndeployedSmartWallet : String :=
  "invalid_exact_evm_payload_undeployed_smart_wallet"

/-- Error code for a reverted factory deployment. -/
def ErrSmartWalletDeploymentFailed : String := "smart_wallet_deployment_failed"

/-- Successful transaction receipt status. -/
def TxStatusSuccess : Nat := 1

/-- Facilitator contract address (constants.go; the model fixes the
EVM_FACILITATOR_CONTRACT_ADDRESS environment override as unset). -/
def FacilitatorContractAddress : String :=
  "0x555e3311a9893c9B17444C1Ff0d88192a57Ef13e"

/-- Static per-asset information (AssetInfo). -/
structure AssetInfo where
  address : String
  name : String
  version : String
  decimals : Nat
  supportsEIP3009 : Bool
deriving DecidableEq, Repr

/-- Per-network configuration (NetworkConfig). -/
structure NetworkConfig where
  chainId : Int
  defaultAsset : AssetInfo
  supportedAssets : List (String × AssetInfo)
deriving DecidableEq, Repr

/-- USDC on Ethereum mainnet. -/
def usdcMainnet : AssetInfo :=
  ⟨"0xA0b86991c6218b36c1d19D4a2e9Eb0cE3606eB48", "USD Coin", "2", 6, true⟩

/-- USDC on Base. -/
def usdcBase : AssetInfo :=
  ⟨"0x833589fCD6eDb6E08f4c7C32D4f71b54bdA02913", "USD Coin", "2", 6, true⟩

/-- USDC on Base Sepolia (model: EVM_USDC_ADDRESS override unset). -/
def usdcBaseSepolia : AssetInfo :=
  ⟨"0x036CbD53842c5426634e7929541eC2318f3dCF7e", "USDC", "2", 6, true⟩

/-- The process-wide network table (NetworkConfigs). -/
def NetworkConfigs (key : String) : Option NetworkConfig :=
  if key = "eip155:1" then some ⟨1, usdcMainnet, [("USDC", usdcMainnet)]⟩
  else if key = "eip155:8453" then some ⟨8453, usdcBase, [("USDC", usdcBase)]⟩
  else if key = "base" then some ⟨8453, usdcBase, [("USDC", usdcBase)]⟩
  else if key = "base-mainnet" then some ⟨8453, usdcBase, [("USDC", usdcBase)]⟩
  else if key = "eip155:84532" then
    some ⟨84532, usdcBaseSepolia, [("USDC", usdcBaseSepolia)]⟩
  else if key = "base-sepolia" then
    some ⟨84532, usdcBaseSepolia, [("USDC", usdcBaseSepolia)]⟩
  else none

/-- Alias normalization used by GetNetworkConfig and GetEvmChainId. -/
def normalizeNetwork (network : String) : String :=
  if network = "base" ∨ network = "base-mainnet" then "eip155:8453"
  else if network = "base-sepolia" then "eip155:84532"
  else network

/-- GetNetworkConfig from mechanisms/evm/utils.go. -/
def GetNetworkConfig (network : String) : Except String NetworkConfig :=
  match NetworkConfigs (normalizeNetwork network) with
  | some config => Except.ok config
  | none => Except.error ("unsupported network: " ++ network)

/-- IsValidNetwork from the evm package. -/
def IsValidNetwork (network : String) : Bool :=
  network = "eip155:1" ∨ network = "eip155:8453" ∨ network = "eip155:84532" ∨
  network = "base" ∨ network = "base-sepolia" ∨ network = "base-mainnet"

/-- NormalizeAddress: lowercase, strip one 0x prefix, put the prefix back. -/
def NormalizeAddress (address : String) : String :=
  ⟨'0' :: 'x' :: strip0x (lowerStr address).toList⟩

/-- IsValidAddress: after stripping an optional 0x prefix, exactly 40
valid hex characters. -/
def IsValidAddress (address : String) : Bool :=
  let a := strip0x address.toList
  a.length == 40 && (hexDecodeL a).isSome

/-- GetAssetInfo from mechanisms/evm/utils.go: an address argument is
normalized and compared with the network default (other addresses become
an unknown 18-decimals token); otherwise look up the uppercased symbol,
falling back to the network default asset. -/
def GetAssetInfo (network assetSymbolOrAddress : String) :
    Except String AssetInfo :=
  match GetNetworkConfig network with
  | Except.error e => Except.error e
  | Except.ok config =>
    if IsValidAddress assetSymbolOrAddress then
      let normalizedAddr := NormalizeAddress assetSymbolOrAddress
      if normalizedAddr = NormalizeAddress config.defaultAsset.address then
        Except.ok config.defaultAsset
      else
        Except.ok ⟨normalizedAddr, "Unknown Token", "1", 18, false⟩
    else
      match config.supportedAssets.lookup (upperStr assetSymbolOrAddress) with
      | some asset => Except.ok asset
      | none => Except.ok config.defaultAsset

/-! ## Idealized EIP-712 typed data (mechanisms/evm/eip712.go)

A digest is represented by its preimage. Address-typed message fields are
stored in canonical 20-byte form and integer fields as the parsed big.Int
value, because the go-ethereum apitypes hasher parses both before
encoding, so the digest depends only on these canonical forms. -/

/-- A value in an EIP-712 message map, after the canonicalization the
hasher performs. none inside num and bytes32 models a nil big.Int or nil
byte slice resulting from an ignored parse error. -/
inductive MsgValue where
  | addr (a : Bytes)
  | num (n : Option Int)
  | bytes32 (bs : Option Bytes)
  | boolean (b : Bool)
deriving DecidableEq, Repr

/-- The EIP-712 domain (TypedDataDomain), verifying contract canonical. -/
structure TypedDataDomain where
  name : String
  version : String
  chainId : Int
  verifyingContract : Bytes
deriving DecidableEq, Repr

/-- An idealized EIP-712 digest: domain, primary type and canonicalized
message. Two TypedData values are equal exactly when the keccak digests
Go computes for them are equal (keccak idealized as injective). -/
structure TypedData where
  domain : TypedDataDomain
  primaryType : String
  message : List (String × MsgValue)
deriving DecidableEq, Repr

/-! ## Data model: payloads and requirements

The types package structs PaymentRequirements and PaymentPayload are
declared outside the sources available under src; their fields below are
modelled from the spec data model (section 3) and from every use site in
the sources (facilitator scheme, client scheme, routing helpers). -/

/-- The keys of the requirements extra map that the EVM schemes read. -/
structure ExtraMap where
  name : Option String
  version : Option String
deriving DecidableEq, Repr

/-- Modelled from the spec: PaymentRequirements (server to client). -/
structure PaymentRequirements where
  scheme : String
  network : String
  asset : String
  amount : String
  payTo : String
  extra : Option ExtraMap
deriving DecidableEq, Repr

/-- The authorization object inside a payload map, with every field
optional exactly as a Go map[string]interface struct read with type
assertions treats it. -/
structure AuthMap where
  token : Option String
  fromAddr : Option String
  toAddr : Option String
  value : Option String
  validAfter : Option String
  validBefore : Option String
  nonce : Option String
  needApprove : Option Bool
deriving DecidableEq, Repr

/-- The scheme-specific payload map: the keys the EVM mechanisms read
from the map[string]interface payload value. -/
structure PayloadMap where
  signature : Option String
  authorization : Option AuthMap
  typeTag : Option String
deriving DecidableEq, Repr

/-- The accepted tuple copied into a v2 payload (matched field by field
against the requirements by the resource server). -/
structure AcceptedTuple where
  scheme : String
  network : String
  asset : String
  amount : String
  payTo : String
deriving DecidableEq, Repr

/-- Modelled from the spec: PaymentPayload (client to facilitator), v2. -/
structure PaymentPayload where
  x402Version : Int
  accepted : AcceptedTuple
  payload : PayloadMap
deriving DecidableEq, Repr

/-- The partial payload a v2 scheme client returns before the core wraps
it (types.PayloadBase). -/
structure SchemePayload where
  x402Version : Int
  payload : PayloadMap
deriving DecidableEq, Repr

/-- Modelled from the spec: the x402 client core wraps the scheme's
partial payload with the accepted tuple copied from the requirements the
client is paying against (spec sections 3 and 4.8; asserted by the
repository's dual-version tests). -/
def wrapAccepted (req : PaymentRequirements) (base : SchemePayload) :
    PaymentPayload :=
  ⟨base.x402Version, ⟨req.scheme, req.network, req.asset, req.amount, req.payTo⟩,
   base.payload⟩

/-- EIP-3009 authorization fields (ExactEIP3009Authorization). -/
structure ExactEIP3009Authorization where
  fromAddr : String
  toAddr : String
  value : String
  validAfter : String
  validBefore : String
  nonce : String
deriving DecidableEq, Repr

/-- ERC-20 authorization fields (ExactERC20Authorization). -/
structure ExactERC20Authorization where
  token : String
  fromAddr : String
  toAddr : String
  value : String
  validAfter : String
  validBefore : String
  nonce : String
  needApprove : Bool
deriving DecidableEq, Repr

/-- Parsed EIP-3009 payload (ExactEIP3009Payload). -/
structure ExactEIP3009Payload where
  signature : String
  authorization : ExactEIP3009Authorization
deriving DecidableEq, Repr

/-- Parsed ERC-20 payload (ExactERC20Payload). -/
structure ExactERC20Payload where
  signature : String
  authorization : ExactERC20Authorization
deriving DecidableEq, Repr

/-- PayloadFromMap: read the payload map with type-asserted accesses,
missing fields defaulting to the empty string; never fails. -/
def PayloadFromMap (data : PayloadMap) : ExactEIP3009Payload :=
  let auth := data.authorization
  { signature := data.signature.getD ""
    authorization :=
      { fromAddr := (auth.bind (·.fromAddr)).getD ""
        toAddr := (auth.bind (·.toAddr)).getD ""
        value := (auth.bind (·.value)).getD ""
        validAfter := (auth.bind (·.validAfter)).getD ""
        validBefore := (auth.bind (·.validBefore)).getD ""
        nonce := (auth.bind (·.nonce)).getD "" } }

/-- PayloadERC20FromMap: like PayloadFromMap with the token and
needApprove extension fields; never fails. -/
def PayloadERC20FromMap (data : PayloadMap) : ExactERC20Payload :=
  let auth := data.authorization
  { signature := data.signature.getD ""
    authorization :=
      { token := (auth.bind (·.token)).getD ""
        fromAddr := (auth.bind (·.fromAddr)).getD ""
        toAddr := (auth.bind (·.toAddr)).getD ""
        value := (auth.bind (·.value)).getD ""
        validAfter := (auth.bind (·.validAfter)).getD ""
        validBefore := (auth.bind (·.validBefore)).getD ""
        nonce := (auth.bind (·.nonce)).getD ""
        needApprove := (auth.bind (·.needApprove)).getD false } }

/-- ToMap for an EIP-3009 payload: the authorization keys are always
written; the signature key is written only when non-empty. The type tag
is added separately by the caller. -/
def eip3009ToMap (p : ExactEIP3009Payload) (typeTag : Option String) :
    PayloadMap :=
  { signature := if p.signature = "" then none else some p.signature
    authorization := some
      { token := none
        fromAddr := some p.authorization.fromAddr
        toAddr := some p.authorization.toAddr
        value := some p.authorization.value
        validAfter := some p.authorization.validAfter
        validBefore := some p.authorization.validBefore
        nonce := some p.authorization.nonce
        needApprove := none }
    typeTag := typeTag }

/-- ToMap for an ERC-20 payload, with the type tag added by the caller. -/
def erc20ToMap (p : ExactERC20Payload) (typeTag : Option String) :
    PayloadMap :=
  { signature := if p.signature = "" then none else some p.signature
    authorization := some
      { token := some p.authorization.token
        fromAddr := some p.authorization.fromAddr
        toAddr := some p.authorization.toAddr
        value := some p.authorization.value
        validAfter := some p.authorization.validAfter
        validBefore := some p.authorization.validBefore
        nonce := some p.authorization.nonce
        needApprove := some p.authorization.needApprove }
    typeTag := typeTag }

/-! ## Typed-data constructions used by the schemes -/

/-- Token name, with the requirements extra name override applied
(identical logic at the client and facilitator call sites). -/
def extraName (assetInfo : AssetInfo) (extra : Option ExtraMap) : String :=
  match extra with
  | none => assetInfo.name
  | some e => (e.name).getD assetInfo.name

/-- Token version, with the requirements extra version override. -/
def extraVersion (assetInfo : AssetInfo) (extra : Option ExtraMap) : String :=
  match extra with
  | none => assetInfo.version
  | some e => (e.version).getD assetInfo.version

/-- The canonicalized TransferWithAuthorization message map. -/
def transferWithAuthMessage (fromS toS valueS vaS vbS nonceS : String) :
    List (String × MsgValue) :=
  [("from", MsgValue.addr (canonAddr fromS)),
   ("to", MsgValue.addr (canonAddr toS)),
   ("value", MsgValue.num (parseBigInt valueS)),
   ("validAfter", MsgValue.num (parseBigInt vaS)),
   ("validBefore", MsgValue.num (parseBigInt vbS)),
   ("nonce", MsgValue.bytes32 (HexToBytes nonceS))]

/-- The typed data the client signs for the EIP-3009 flow
(signAuthorizationEIP3009): domain from the token metadata, message
built from the raw authorization strings. -/
def clientEIP3009TypedData (auth : ExactEIP3009Authorization) (chainId : Int)
    (verifyingContract tokenName tokenVersion : String) : TypedData :=
  { domain := ⟨tokenName, tokenVersion, chainId, canonAddr verifyingContract⟩
    primaryType := "TransferWithAuthorization"
    message := transferWithAuthMessage auth.fromAddr auth.toAddr auth.value
      auth.validAfter auth.validBefore auth.nonce }

/-- The typed data the facilitator hashes for the EIP-3009 flow
(HashEIP3009Authorization): same structure but the from and to strings
are first parsed and re-rendered by common.HexToAddress(...).Hex(). -/
def facilitatorEIP3009TypedData (auth : ExactEIP3009Authorization)
    (chainId : Int) (verifyingContract tokenName tokenVersion : String) :
    TypedData :=
  { domain := ⟨tokenName, tokenVersion, chainId, canonAddr verifyingContract⟩
    primaryType := "TransferWithAuthorization"
    message := transferWithAuthMessage
      (addrToHexString (canonAddr auth.fromAddr))
      (addrToHexString (canonAddr auth.toAddr))
      auth.value auth.validAfter auth.validBefore auth.nonce }

/-- The canonicalized tokenTransferWithAuthorization message map. -/
def tokenTransferWithAuthMessage (tokenS fromS toS valueS vaS vbS nonceS :
    String) (needApprove : Bool) : List (String × MsgValue) :=
  [("token", MsgValue.addr (canonAddr tokenS)),
   ("from", MsgValue.addr (canonAddr fromS)),
   ("to", MsgValue.addr (canonAddr toS)),
   ("value", MsgValue.num (parseBigInt valueS)),
   ("validAfter", MsgValue.num (parseBigInt vaS)),
   ("validBefore", MsgValue.num (parseBigInt vbS)),
   ("nonce", MsgValue.bytes32 (HexToBytes nonceS)),
   ("needApprove", MsgValue.boolean needApprove)]

/-- The typed data the client signs for the ERC-20 flow
(signAuthorizationERC20): hardcoded domain name Facilitator, version 1,
verifying contract the facilitator contract. -/
def clientERC20TypedData (auth : ExactERC20Authorization) (chainId : Int)
    (verifyingContract : String) : TypedData :=
  { domain := ⟨"Facilitator", "1", chainId, canonAddr verifyingContract⟩
    primaryType := "tokenTransferWithAuthorization"
    message := tokenTransferWithAuthMessage auth.token auth.fromAddr
      auth.toAddr auth.value auth.validAfter auth.validBefore auth.nonce
      auth.needApprove }

/-- Modelled from the spec: HashERC20Authorization (called by the
facilitator scheme but defined in an evm package file not present under
src). Per spec sections 4.8 and 6, the generic ERC-20 authorization is
hashed over the tokenTransferWithAuthorization type against the domain
with name Facilitator, version 1, the chain id and the facilitator
contract address. -/
def facilitatorERC20TypedData (auth : ExactERC20Authorization) (chainId : Int)
    (verifyingContract : String) : TypedData :=
  clientERC20TypedData auth chainId verifyingContract

/-! ## Crypto model and RPC oracles -/

/-- Abstract secp256k1 recovery: crypto.SigToPub followed by
crypto.PubkeyToAddress. Takes the idealized digest and a 65-byte
signature whose recovery id byte has already been normalized below 27,
and returns the recovered 20-byte address or a recovery error. The
embedded code is parametric in this model; theorems quantify over it. -/
structure CryptoModel where
  recover : TypedData → Bytes → Except String Bytes

/-- A transaction receipt (TransactionReceipt). -/
structure TransactionReceipt where
  status : Nat
  blockNumber : Nat
  txHash : String
deriving DecidableEq, Repr

/-- The argument record of a settlePayment invocation on the facilitator
contract (the WriteContract call in Settle). -/
structure SettleCallArgs where
  token : Bytes
  fromAddr : Bytes
  toAddr : Bytes
  value : Option Int
  validAfter : Option Int
  validBefore : Option Int
  nonce : Option Bytes
  signature : Bytes
deriving DecidableEq, Repr

/-- One outbound chain interaction, recorded in the call trace that every
embedded operation returns alongside its result. -/
inductive CallEvt where
  | getCode (addr : String)
  | read1271 (wallet : String)
  | probe3009 (token : String)
  | readAllowance (token owner spender : String)
  | writeApprove (token spender : String) (value : Int)
  | writeSettle (args : SettleCallArgs)
  | sendTx (toAddr : String) (data : Bytes)
  | waitReceipt (tx : String)
deriving DecidableEq, Repr

/-- The facilitator signer oracle (FacilitatorEvmSigner), with one field
per contract interaction the embedded code performs. Results are fixed
per argument; the trace records which were actually consulted. -/
structure FacSigner where
  getAddresses : List String
  getCode : String → Except String Bytes
  read1271 : String → TypedData → Bytes → Except String Bytes
  probe3009 : String → String → Option String
  writeSettle : SettleCallArgs → Except String String
  sendTransaction : String → Bytes → Except String String
  waitForReceipt : String → Except String TransactionReceipt

/-- The client signer oracle (ClientEvmSigner). -/
structure ClientSigner where
  address : String
  signTypedData : TypedData → Except String Bytes
  readAllowance : String → String → String → Except String Int
  writeApprove : String → String → Int → Except String String
  waitForReceipt : String → Except String TransactionReceipt
  probe : String → String → Option String

/-! ## EOA and EIP-1271 verification -/

/-- The recovery-id normalization of VerifyEOASignature: when the final
byte is 27 or more, subtract 27 from it (on a copy). -/
def normalizeV (signature : Bytes) : Bytes :=
  let v := signature.getD 64 0
  if 27 ≤ v then signature.take 64 ++ [v - 27] else signature

/-- VerifyEOASignature (verify_eoa.go): reject non-65-byte signatures,
normalize a recovery id of 27 or more by subtracting 27, recover, and
compare the recovered address with the expected one. Returns the
(valid, error) pair of the Go function. -/
def VerifyEOASignature (cm : CryptoModel) (hash : TypedData)
    (signature : Bytes) (expectedAddress : Bytes) : Bool × Option String :=
  if signature.length ≠ 65 then
    (false, some "invalid EOA signature length: expected 65 bytes")
  else
    match cm.recover hash (normalizeV signature) with
    | Except.error e => (false, some e)
    | Except.ok recovered => (recovered == expectedAddress, none)

/-- The EIP-1271 magic value 0x1626ba7e. -/
def eip1271MagicValue : Bytes := [0x16, 0x26, 0xba, 0x7e]

/-- VerifyEIP1271Signature (verify_1271.go): call isValidSignature on the
wallet over the chain and compare the first four returned bytes with the
magic value. The oracle returns the result as bytes, covering both the
byte-slice and byte-array cases of the Go type switch. -/
def VerifyEIP1271Signature (o : FacSigner) (wallet : String)
    (hash : TypedData) (signature : Bytes) :
    (Bool × Option String) × List CallEvt :=
  let tr := [CallEvt.read1271 wallet]
  match o.read1271 wallet hash signature with
  | Except.error e => ((false, some e), tr)
  | Except.ok resultBytes =>
    if resultBytes.length < 4 then
      ((false, some "invalid return value from isValidSignature: too short"), tr)
    else
      ((resultBytes.take 4 == eip1271MagicValue, none), tr)

/-! ## Universal signature verification (verify_universal.go) -/

/-- The result triple of VerifyUniversalSignature: validity flag, the
parsed envelope when available, and the error. -/
structure VUSResult where
  valid : Bool
  sigData : Option ERC6492SignatureData
  err : Option String
deriving DecidableEq, Repr

/-- VerifyUniversalSignature: parse the ERC-6492 envelope; a 65-byte
inner signature with a zero factory takes the EOA fast path with no chain
interaction; otherwise getCode decides between the EIP-1271 path
(deployed), the counterfactual acceptance controlled by allowUndeployed
(undeployed with deployment info), and the EOA fallback (undeployed
without deployment info). -/
def VerifyUniversalSignature (cm : CryptoModel) (o : FacSigner)
    (signerAddress : String) (hash : TypedData) (signature : Bytes)
    (allowUndeployed : Bool) : VUSResult × List CallEvt :=
  match ParseERC6492Signature signature with
  | Except.error e => (⟨false, none, some e⟩, [])
  | Except.ok sigData =>
    if sigData.innerSignature.length == 65 && sigData.factory == zero20 then
      let (valid, err) :=
        VerifyEOASignature cm hash sigData.innerSignature (canonAddr signerAddress)
      (⟨valid, some sigData, err⟩, [])
    else
      match o.getCode signerAddress with
      | Except.error e => (⟨false, none, some e⟩, [CallEvt.getCode signerAddress])
      | Except.ok code =>
        if code.length = 0 then
          let hasDeploymentInfo :=
            sigData.factory ≠ zero20 ∧ sigData.factoryCalldata.length > 0
          if hasDeploymentInfo then
            if !allowUndeployed then
              (⟨false, none,
                some (ErrUndeployedSmartWallet ++ ": undeployed not allowed")⟩,
               [CallEvt.getCode signerAddress])
            else
              (⟨true, some sigData, none⟩, [CallEvt.getCode signerAddress])
          else
            let (valid, err) :=
              VerifyEOASignature cm hash sigData.innerSignature
                (canonAddr signerAddress)
            (⟨valid, some sigData, err⟩, [CallEvt.getCode signerAddress])
        else
          let ((valid, err), tr) :=
            VerifyEIP1271Signature o signerAddress hash sigData.innerSignature
          (⟨valid, some sigData, err⟩, CallEvt.getCode signerAddress :: tr)

/-! ## EIP-3009 capability probe and cache (mechanisms/evm/utils.go) -/

/-- The process-wide EIP3009SupportCache, modelled as an association list
with most recent writes first (sync.Map key to boolean). -/
abbrev SupportCache := List (String × Bool)

/-- The cache key: decimal chain id, a colon, the lowercased token. -/
def cacheKey (chainId : Int) (tokenAddress : String) : String :=
  decStr chainId ++ ":" ++ lowerStr tokenAddress

/-- Classify the outcome of the simulated transferWithAuthorization call:
success means supported; a failure is supported exactly when the error
message contains signature, authorization or nonce case-insensitively. -/
def classifyProbeOutcome (outcome : Option String) : Bool :=
  match outcome with
  | none => true
  | some errStr =>
    strContains (lowerStr errStr) "signature" ||
    strContains (lowerStr errStr) "authorization" ||
    strContains (lowerStr errStr) "nonce"

/-- VerifyEIP3009Support: consult the cache first; on a miss, run the
dummy transferWithAuthorization simulation through the contract reader,
classify the outcome, and store it. The Go function always returns a nil
error, so the model returns just the boolean with the updated cache and
the call trace. -/
def VerifyEIP3009Support (probe : String → String → Option String)
    (cache : SupportCache) (chainId : Int)
    (fromAddress tokenAddress : String) :
    Bool × SupportCache × List CallEvt :=
  let key := cacheKey chainId tokenAddress
  match cache.lookup key with
  | some val => (val, cache, [])
  | none =>
    let supported := classifyProbeOutcome (probe fromAddress tokenAddress)
    (supported, (key, supported) :: cache, [CallEvt.probe3009 tokenAddress])

/-! ## Facilitator errors and responses -/

/-- A structured verify-stage error (x402.VerifyError, constructed by
NewVerifyError(reason, payer, network, cause); the types are declared in
the x402 root package outside src, with fields fixed by every use site
and by the spec error model in section 7). -/
structure VerifyError where
  reason : String
  payer : String
  network : String
  cause : Option String
deriving DecidableEq, Repr

/-- A structured settle-stage error (x402.SettleError). -/
structure SettleError where
  reason : String
  payer : String
  network : String
  transaction : String
  cause : Option String
deriving DecidableEq, Repr

/-- x402.VerifyResponse. -/
structure VerifyResponse where
  isValid : Bool
  payer : String
deriving DecidableEq, Repr

/-- x402.SettleResponse. -/
structure SettleResponse where
  success : Bool
  transaction : String
  network : String
  payer : String
deriving DecidableEq, Repr

/-! ## Facilitator Verify (mechanisms/evm/exact/facilitator/scheme.go) -/

/-- The flow discriminator of Verify: when the payload carries a type
key it must be authorizationEip3009 or authorization; without the key,
fall back to the capability probe on the token (whose error return is
always nil, so the unreachable cannot-check default is dropped). -/
def verifyTypeDispatch (o : FacSigner) (cache : SupportCache)
    (chainId : Int) (fromAddr assetAddr : String) (typeTag : Option String)
    (network : String) :
    Except VerifyError Bool × SupportCache × List CallEvt :=
  match typeTag with
  | some t =>
    if t = "authorizationEip3009" then (Except.ok true, cache, [])
    else if t = "authorization" then (Except.ok false, cache, [])
    else
      (Except.error ⟨"invalid_payload_type", "", network,
        some ("unknown payload type: " ++ t)⟩, cache, [])
  | none =>
    let (supported, cache', tr) :=
      VerifyEIP3009Support o.probe3009 cache chainId fromAddr assetAddr
    (Except.ok supported, cache', tr)

/-- The tail of Verify after the amount gate: flow dispatch, signature
decoding, EIP-712 hashing of the appropriate authorization type, and
universal signature verification with allowUndeployed set. In the
EIP-3009 branch, verifySignature additionally peeks getCode when the
envelope carries a factory (the result is discarded; only its error is
propagated). -/
def verifyAfterAmount (cm : CryptoModel) (o : FacSigner)
    (cache : SupportCache) (payload : PaymentPayload)
    (req : PaymentRequirements) (config : NetworkConfig)
    (assetInfo : AssetInfo) (evmPayload : ExactEIP3009Payload) :
    Except VerifyError VerifyResponse × SupportCache × List CallEvt :=
  let network := req.network
  let fromAddr := evmPayload.authorization.fromAddr
  let tokenName := extraName assetInfo req.extra
  let tokenVersion := extraVersion assetInfo req.extra
  match verifyTypeDispatch o cache config.chainId fromAddr assetInfo.address
      payload.payload.typeTag network with
  | (Except.error e, cache1, tr1) => (Except.error e, cache1, tr1)
  | (Except.ok isEIP3009, cache1, tr1) =>
    match HexToBytes evmPayload.signature with
    | none =>
      (Except.error ⟨"invalid_signature_format", fromAddr, network,
        some "hex decode error"⟩, cache1, tr1)
    | some signatureBytes =>
      if isEIP3009 then
        let hash := facilitatorEIP3009TypedData evmPayload.authorization
          config.chainId assetInfo.address tokenName tokenVersion
        let (vr, tr2) := VerifyUniversalSignature cm o fromAddr hash
          signatureBytes true
        match vr.err with
        | some e =>
          (Except.error ⟨"failed_to_verify_signature", fromAddr, network,
            some e⟩, cache1, tr1 ++ tr2)
        | none =>
          match vr.sigData with
          | some sd =>
            if sd.factory ≠ zero20 then
              match o.getCode fromAddr with
              | Except.error e =>
                (Except.error ⟨"failed_to_verify_signature", fromAddr,
                  network, some e⟩, cache1,
                 tr1 ++ tr2 ++ [CallEvt.getCode fromAddr])
              | Except.ok _ =>
                if vr.valid = false then
                  (Except.error ⟨"invalid_signature", fromAddr, network,
                    none⟩, cache1, tr1 ++ tr2 ++ [CallEvt.getCode fromAddr])
                else
                  (Except.ok ⟨true, fromAddr⟩, cache1,
                   tr1 ++ tr2 ++ [CallEvt.getCode fromAddr])
            else
              if vr.valid = false then
                (Except.error ⟨"invalid_signature", fromAddr, network, none⟩,
                 cache1, tr1 ++ tr2)
              else
                (Except.ok ⟨true, fromAddr⟩, cache1, tr1 ++ tr2)
          | none =>
            if vr.valid = false then
              (Except.error ⟨"invalid_signature", fromAddr, network, none⟩,
               cache1, tr1 ++ tr2)
            else
              (Except.ok ⟨true, fromAddr⟩, cache1, tr1 ++ tr2)
      else
        let evmPayloadERC20 := PayloadERC20FromMap payload.payload
        let hash := facilitatorERC20TypedData evmPayloadERC20.authorization
          config.chainId FacilitatorContractAddress
        let (vr, tr2) := VerifyUniversalSignature cm o fromAddr hash
          signatureBytes true
        match vr.err with
        | some e =>
          (Except.error ⟨"failed_to_verify_signature", fromAddr, network,
            some e⟩, cache1, tr1 ++ tr2)
        | none =>
          if vr.valid = false then
            (Except.error ⟨"invalid_signature", fromAddr, network, none⟩,
             cache1, tr1 ++ tr2)
          else
            (Except.ok ⟨true, fromAddr⟩, cache1, tr1 ++ tr2)

/-- Verify: the facilitator scheme's off-chain validation of a v2
payment payload against the requirements, in source order: scheme and
network matching, configuration and asset resolution, payload parsing,
signature presence, case-insensitive recipient check, decimal amount
parsing, the inclusive amount comparison, then flow dispatch and
signature verification. -/
def Verify (cm : CryptoModel) (o : FacSigner) (cache : SupportCache)
    (payload : PaymentPayload) (req : PaymentRequirements) :
    Except VerifyError VerifyResponse × SupportCache × List CallEvt :=
  let network := req.network
  if payload.accepted.scheme ≠ SchemeExact then
    (Except.error ⟨"invalid_scheme", "", network, none⟩, cache, [])
  else if payload.accepted.network ≠ req.network then
    (Except.error ⟨"network_mismatch", "", network, none⟩, cache, [])
  else
    match GetNetworkConfig req.network with
    | Except.error e =>
      (Except.error ⟨"failed_to_get_network_config", "", network, some e⟩,
       cache, [])
    | Except.ok config =>
      match GetAssetInfo req.network req.asset with
      | Except.error e =>
        (Except.error ⟨"failed_to_get_asset_info", "", network, some e⟩,
         cache, [])
      | Except.ok assetInfo =>
        let evmPayload := PayloadFromMap payload.payload
        if evmPayload.signature = "" then
          (Except.error ⟨"missing_signature", "", network, none⟩, cache, [])
        else if eqFold evmPayload.authorization.toAddr req.payTo = false then
          (Except.error ⟨"recipient_mismatch", "", network, none⟩, cache, [])
        else
          match parseBigInt evmPayload.authorization.value with
          | none =>
            (Except.error ⟨"invalid_authorization_value", "", network, none⟩,
             cache, [])
          | some authValue =>
            match parseBigInt req.amount with
            | none =>
              (Except.error ⟨"invalid_required_amount", "", network,
                some ("invalid amount: " ++ req.amount)⟩, cache, [])
            | some requiredValue =>
              if authValue < requiredValue then
                (Except.error ⟨"insufficient_amount",
                  evmPayload.authorization.fromAddr, network, none⟩, cache, [])
              else
                verifyAfterAmount cm o cache payload req config assetInfo
                  evmPayload

/-! ## Facilitator Settle (mechanisms/evm/exact/facilitator/scheme.go) -/

/-- deploySmartWallet: send the pre-encoded factory calldata as a raw
transaction to the factory address and block on the receipt, failing when
the deployment transaction reverted. -/
def deploySmartWallet (o : FacSigner) (sigData : ERC6492SignatureData) :
    Except String Unit × List CallEvt :=
  let factoryHex := addrToHexString sigData.factory
  match o.sendTransaction factoryHex sigData.factoryCalldata with
  | Except.error e =>
    (Except.error ("factory deployment transaction failed: " ++ e),
     [CallEvt.sendTx factoryHex sigData.factoryCalldata])
  | Except.ok txHash =>
    match o.waitForReceipt txHash with
    | Except.error e =>
      (Except.error ("failed to wait for deployment: " ++ e),
       [CallEvt.sendTx factoryHex sigData.factoryCalldata,
        CallEvt.waitReceipt txHash])
    | Except.ok receipt =>
      if receipt.status ≠ TxStatusSuccess then
        (Except.error "deployment transaction reverted",
         [CallEvt.sendTx factoryHex sigData.factoryCalldata,
          CallEvt.waitReceipt txHash])
      else
        (Except.ok (),
         [CallEvt.sendTx factoryHex sigData.factoryCalldata,
          CallEvt.waitReceipt txHash])

/-- The tail of Settle after re-verification, asset resolution, payload
parsing and envelope parsing succeeded: deploy-on-settle handling for a
counterfactual wallet, then the settlePayment write with the full
(possibly wrapped) signature, blocking on its receipt. -/
def settleAfterParse (o : FacSigner) (deployEnabled : Bool)
    (req : PaymentRequirements) (network payer : String)
    (evmPayload : ExactEIP3009Payload) (assetInfo : AssetInfo)
    (signatureBytes : Bytes) (sigData : ERC6492SignatureData) :
    Except SettleError SettleResponse × List CallEvt :=
  let fromAddr := evmPayload.authorization.fromAddr
  let deployStep : Except SettleError Unit × List CallEvt :=
    if sigData.factory ≠ zero20 ∧ sigData.factoryCalldata.length > 0 then
      match o.getCode fromAddr with
      | Except.error e =>
        (Except.error ⟨"failed_to_check_deployment", payer, network, "",
          some e⟩, [CallEvt.getCode fromAddr])
      | Except.ok code =>
        if code.length = 0 then
          if deployEnabled then
            match deploySmartWallet o sigData with
            | (Except.error e, trD) =>
              (Except.error ⟨ErrSmartWalletDeploymentFailed, payer, network,
                "", some e⟩, CallEvt.getCode fromAddr :: trD)
            | (Except.ok _, trD) =>
              (Except.ok (), CallEvt.getCode fromAddr :: trD)
          else
            (Except.error ⟨ErrUndeployedSmartWallet, payer, network, "",
              none⟩, [CallEvt.getCode fromAddr])
        else
          (Except.ok (), [CallEvt.getCode fromAddr])
    else
      (Except.ok (), [])
  match deployStep with
  | (Except.error e, tr) => (Except.error e, tr)
  | (Except.ok _, tr) =>
    let args : SettleCallArgs :=
      { token := canonAddr assetInfo.address
        fromAddr := canonAddr fromAddr
        toAddr := canonAddr req.payTo
        value := parseBigInt evmPayload.authorization.value
        validAfter := parseBigInt evmPayload.authorization.validAfter
        validBefore := parseBigInt evmPayload.authorization.validBefore
        nonce := HexToBytes evmPayload.authorization.nonce
        signature := signatureBytes }
    match o.writeSettle args with
    | Except.error e =>
      (Except.error ⟨"failed_to_execute_transfer", payer, network, "",
        some e⟩, tr ++ [CallEvt.writeSettle args])
    | Except.ok txHash =>
      match o.waitForReceipt txHash with
      | Except.error e =>
        (Except.error ⟨"failed_to_get_receipt", payer, network, txHash,
          some e⟩, tr ++ [CallEvt.writeSettle args, CallEvt.waitReceipt txHash])
      | Except.ok receipt =>
        if receipt.status ≠ TxStatusSuccess then
          (Except.error ⟨"transaction_failed", payer, network, txHash, none⟩,
           tr ++ [CallEvt.writeSettle args, CallEvt.waitReceipt txHash])
        else
          (Except.ok ⟨true, txHash, network, payer⟩,
           tr ++ [CallEvt.writeSettle args, CallEvt.waitReceipt txHash])

/-- Settle: re-run Verify (converting a verify error into a settle error
preserving reason and payer), resolve the asset, re-parse the payload,
signature and ERC-6492 envelope, deploy the smart wallet when required
and enabled, then execute settlePayment and block on the receipt. -/
def Settle (cm : CryptoModel) (o : FacSigner) (deployEnabled : Bool)
    (cache : SupportCache) (payload : PaymentPayload)
    (req : PaymentRequirements) :
    Except SettleError SettleResponse × SupportCache × List CallEvt :=
  let network := payload.accepted.network
  match Verify cm o cache payload req with
  | (Except.error ve, cache1, tr1) =>
    (Except.error ⟨ve.reason, ve.payer, ve.network, "", ve.cause⟩, cache1, tr1)
  | (Except.ok verifyResp, cache1, tr1) =>
    match GetAssetInfo req.network req.asset with
    | Except.error e =>
      (Except.error ⟨"failed_to_get_asset_info", verifyResp.payer, network,
        "", some e⟩, cache1, tr1)
    | Except.ok assetInfo =>
      let evmPayload := PayloadFromMap payload.payload
      match HexToBytes evmPayload.signature with
      | none =>
        (Except.error ⟨"invalid_signature_format", verifyResp.payer, network,
          "", some "hex decode error"⟩, cache1, tr1)
      | some signatureBytes =>
        match ParseERC6492Signature signatureBytes with
        | Except.error e =>
          (Except.error ⟨"failed_to_parse_signature", verifyResp.payer,
            network, "", some e⟩, cache1, tr1)
        | Except.ok sigData =>
          match settleAfterParse o deployEnabled req network verifyResp.payer
              evmPayload assetInfo signatureBytes sigData with
          | (res, tr2) => (res, cache1, tr1 ++ tr2)

/-! ## Client CreatePaymentPayload (mechanisms/evm/exact/client/scheme.go) -/

/-- The approve-if-needed step of the ERC-20 flow: read the allowance of
the facilitator contract; when it is strictly below the required value,
send approve(facilitatorContract, value) and block on its receipt,
failing when the approve transaction reverted. -/
def approveIfNeeded (cs : ClientSigner) (tokenAddress : String)
    (value : Int) : Except String Unit × List CallEvt :=
  let trRead :=
    [CallEvt.readAllowance tokenAddress cs.address FacilitatorContractAddress]
  match cs.readAllowance tokenAddress cs.address FacilitatorContractAddress with
  | Except.error e =>
    (Except.error ("failed to check allowance: " ++ e), trRead)
  | Except.ok allowance =>
    if allowance < value then
      match cs.writeApprove tokenAddress FacilitatorContractAddress value with
      | Except.error e =>
        (Except.error ("failed to send approve transaction: " ++ e),
         trRead ++
          [CallEvt.writeApprove tokenAddress FacilitatorContractAddress value])
      | Except.ok txHash =>
        match cs.waitForReceipt txHash with
        | Except.error e =>
          (Except.error ("failed to wait for approve receipt: " ++ e),
           trRead ++
            [CallEvt.writeApprove tokenAddress FacilitatorContractAddress value,
             CallEvt.waitReceipt txHash])
        | Except.ok receipt =>
          if receipt.status = 0 then
            (Except.error "approve transaction failed",
             trRead ++
              [CallEvt.writeApprove tokenAddress FacilitatorContractAddress
                value, CallEvt.waitReceipt txHash])
          else
            (Except.ok (),
             trRead ++
              [CallEvt.writeApprove tokenAddress FacilitatorContractAddress
                value, CallEvt.waitReceipt txHash])
    else
      (Except.ok (), trRead)

/-- CreatePaymentPayload: validate the network, resolve configuration and
asset, parse the amount, compute the validity window now - 30 to
now + 3600 seconds, pick the flow (static supportsEIP3009 flag, else the
capability probe), then either sign a TransferWithAuthorization against
the token domain and emit a payload tagged authorizationEip3009, or run
the allowance and approve steps, sign tokenTransferWithAuthorization
against the hardcoded Facilitator domain and emit a payload tagged
authorization. The random 32-byte nonce and the clock are inputs. -/
def CreatePaymentPayload (cs : ClientSigner) (cache : SupportCache)
    (req : PaymentRequirements) (nonce : String) (now : Int) :
    Except String SchemePayload × SupportCache × List CallEvt :=
  if IsValidNetwork req.network = false then
    (Except.error ("unsupported network: " ++ req.network), cache, [])
  else
    match GetNetworkConfig req.network with
    | Except.error e => (Except.error e, cache, [])
    | Except.ok config =>
      match GetAssetInfo req.network req.asset with
      | Except.error e => (Except.error e, cache, [])
      | Except.ok assetInfo =>
        match parseBigInt req.amount with
        | none => (Except.error ("invalid amount: " ++ req.amount), cache, [])
        | some value =>
          let validAfter := now - 30
          let validBefore := now + 3600
          let tokenName := extraName assetInfo req.extra
          let tokenVersion := extraVersion assetInfo req.extra
          let (supports, cache1, tr1) :=
            if assetInfo.supportsEIP3009 then (true, cache, [])
            else VerifyEIP3009Support cs.probe cache config.chainId
              cs.address assetInfo.address
          if supports then
            let auth : ExactEIP3009Authorization :=
              ⟨cs.address, req.payTo, decStr value, decStr validAfter,
               decStr validBefore, nonce⟩
            let td := clientEIP3009TypedData auth config.chainId
              assetInfo.address tokenName tokenVersion
            match cs.signTypedData td with
            | Except.error e =>
              (Except.error ("failed to sign authorization: " ++ e), cache1, tr1)
            | Except.ok sig =>
              let evmPayload : ExactEIP3009Payload :=
                ⟨⟨'0' :: 'x' :: hexEncodeL sig⟩, auth⟩
              (Except.ok ⟨2, eip3009ToMap evmPayload
                (some "authorizationEip3009")⟩, cache1, tr1)
          else
            match approveIfNeeded cs assetInfo.address value with
            | (Except.error e, tr2) => (Except.error e, cache1, tr1 ++ tr2)
            | (Except.ok _, tr2) =>
              let auth : ExactERC20Authorization :=
                ⟨assetInfo.address, cs.address, req.payTo, decStr value,
                 decStr validAfter, decStr validBefore, nonce, true⟩
              let td := clientERC20TypedData auth config.chainId
                FacilitatorContractAddress
              match cs.signTypedData td with
              | Except.error e =>
                (Except.error ("failed to sign authorization: " ++ e),
                 cache1, tr1 ++ tr2)
              | Except.ok sig =>
                let evmPayload : ExactERC20Payload :=
                  ⟨⟨'0' :: 'x' :: hexEncodeL sig⟩, auth⟩
                (Except.ok ⟨2, erc20ToMap evmPayload (some "authorization")⟩,
                 cache1, tr1 ++ tr2)

/-! ## Concrete fixtures

Concrete signers, oracles, requirements and payloads used by the witness
and counterexample theorems below. -/

/-- A concrete payer address. -/
def addrW : String := "0x14791697260E4c9A71f18484C9f997B308e59325"

/-- A concrete recipient address. -/
def payToW : String := "0xabcdef1234567890123456789012345678901234"

/-- A concrete 65-byte EOA-shaped signature with recovery id 27. -/
def sigW : Bytes := List.replicate 64 1 ++ [27]

/-- The hex rendering of the concrete signature. -/
def sigHexW : String := ⟨'0' :: 'x' :: hexEncodeL sigW⟩

/-- A concrete 32-byte nonce in hex. -/
def nonceW : String := ⟨'0' :: 'x' :: hexEncodeL (List.replicate 32 17)⟩

/-- A crypto model in which recovery always yields the concrete payer. -/
def cmW : CryptoModel := ⟨fun _ _ => Except.ok (canonAddr addrW)⟩

/-- A crypto model in which recovery always yields the recipient address,
so that recovery against the payer mismatches. -/
def cmBadW : CryptoModel := ⟨fun _ _ => Except.ok (canonAddr payToW)⟩

/-- A concrete client signer for the payer. -/
def csW : ClientSigner :=
  { address := addrW
    signTypedData := fun _ => Except.ok sigW
    readAllowance := fun _ _ _ => Except.error "offline"
    writeApprove := fun _ _ _ => Except.error "offline"
    waitForReceipt := fun _ => Except.error "offline"
    probe := fun _ _ => some "no data" }

/-- A concrete facilitator signer whose chain has no code anywhere and
whose transactions succeed. -/
def foW : FacSigner :=
  { getAddresses := ["0xfac"]
    getCode := fun _ => Except.ok []
    read1271 := fun _ _ _ => Except.error "no contract"
    probe3009 := fun _ _ => some "no data"
    writeSettle := fun _ => Except.ok "0xsettletx"
    sendTransaction := fun _ _ => Except.ok "0xdeploytx"
    waitForReceipt := fun _ => Except.ok ⟨1, 10, "0xsettletx"⟩ }

/-- A facilitator signer whose transaction receipts all revert. -/
def foRevertW : FacSigner :=
  { foW with waitForReceipt := fun _ => Except.ok ⟨0, 10, "0xdeploytx"⟩ }

/-- Concrete payment requirements: one USDC on Base to the recipient. -/
def reqW : PaymentRequirements :=
  ⟨"exact", "eip155:8453", "USDC", "1000000", payToW, none⟩

/-- A hand-built EIP-3009 v2 payment payload with the given validity
window strings and signature hex. -/
def mkPayloadW (va vb sigHex : String) : PaymentPayload :=
  { x402Version := 2
    accepted := ⟨"exact", "eip155:8453", "USDC", "1000000", payToW⟩
    payload :=
      { signature := some sigHex
        authorization := some
          { token := none
            fromAddr := some addrW
            toAddr := some payToW
            value := some "1000000"
            validAfter := some va
            validBefore := some vb
            nonce := some nonceW
            needApprove := none }
        typeTag := some "authorizationEip3009" } }

/-- A concrete factory address (20 bytes). -/
def factoryW : Bytes := List.replicate 19 0 ++ [5]

/-- Concrete factory deployment calldata. -/
def calldataW : Bytes := [0xde, 0xad, 0xbe, 0xef]

/-- A concrete inner smart-wallet signature (non-65-byte). -/
def innerW : Bytes := List.replicate 70 3

/-- The concrete ERC-6492 wrapped signature. -/
def wsigW : Bytes := wrap6492 factoryW calldataW innerW

/-- The hex rendering of the wrapped signature. -/
def wsigHexW : String := ⟨'0' :: 'x' :: hexEncodeL wsigW⟩

/-- The payload carrying the wrapped counterfactual-wallet signature. -/
def payload6492W : PaymentPayload := mkPayloadW "970" "4600" wsigHexW

/-- The facilitator-side typed data for a hand-built payload carrying
the given validity window strings. -/
def c2TypedData (va vb : String) : TypedData :=
  facilitatorEIP3009TypedData ⟨addrW, payToW, "1000000", va, vb, nonceW⟩
    8453 usdcBase.address "USD Coin" "2"

/-- The scheme payload the concrete client produces for reqW at clock
1000 with nonceW. -/
def baseW : SchemePayload :=
  ⟨2, eip3009ToMap
    ⟨sigHexW, ⟨addrW, payToW, "1000000", "970", "4600", nonceW⟩⟩
    (some "authorizationEip3009")⟩

/-- The EIP-3009 typed data the client signs when paying requirements req
with value v, nonce and clock now: packaged for the statement of the
client-facilitator agreement theorem. -/
def c1TypedData (cs : ClientSigner) (req : PaymentRequirements)
    (config : NetworkConfig) (assetInfo : AssetInfo) (v now : Int)
    (nonce : String) : TypedData :=
  clientEIP3009TypedData
    ⟨cs.address, req.payTo, decStr v, decStr (now - 30), decStr (now + 3600),
     nonce⟩
    config.chainId assetInfo.address (extraName assetInfo req.extra)
    (extraVersion assetInfo req.extra)

/-- Chain-reading call events: the only kinds of RPC interaction Verify
may perform. Settlement transactions (writeSettle, sendTx) and other
state-changing calls are not read-only. -/
def readOnlyEvt : CallEvt → Bool
  | CallEvt.getCode _ => true
  | CallEvt.read1271 _ => true
  | CallEvt.probe3009 _ => true
  | _ => false

/-- A concrete plain-ERC-20 asset address (not the network default, so
asset resolution yields an unknown token without EIP-3009 support). -/
def erc20AssetW : String := "0x1111111111111111111111111111111111111111"

/-- Concrete requirements paying with the plain ERC-20 asset. -/
def reqERC20W : PaymentRequirements :=
  ⟨"exact", "eip155:8453", erc20AssetW, "1000000", payToW, none⟩

/-- A cache that already records the plain ERC-20 asset as unsupported. -/
def cacheERC20W : SupportCache := [(cacheKey 8453 erc20AssetW, false)]

/-- A client signer with a large existing allowance. -/
def csHighW : ClientSigner :=
  { csW with
    readAllowance := fun _ _ _ => Except.ok 2000000
    writeApprove := fun _ _ _ => Except.error "unexpected approve"
    waitForReceipt := fun _ => Except.error "unexpected wait" }

/-- A client signer with a low allowance whose approve succeeds. -/
def csLowOkW : ClientSigner :=
  { csW with
    readAllowance := fun _ _ _ => Except.ok 5
    writeApprove := fun _ _ _ => Except.ok "0xapprovetx"
    waitForReceipt := fun _ => Except.ok ⟨1, 7, "0xapprovetx"⟩ }

/-- A client signer with a low allowance whose approve reverts. -/
def csLowRevertW : ClientSigner :=
  { csW with
    readAllowance := fun _ _ _ => Except.ok 5
    writeApprove := fun _ _ _ => Except.ok "0xapprovetx"
    waitForReceipt := fun _ => Except.ok ⟨0, 7, "0xapprovetx"⟩ }

/-- The ERC-20 typed data the client signs for requirements req with the
given asset, value and window: hardcoded Facilitator domain, version 1,
verifying contract the facilitator contract address. -/
def c9TypedData (cs : ClientSigner) (req : PaymentRequirements)
    (config : NetworkConfig) (assetInfo : AssetInfo) (v now : Int)
    (nonce : String) : TypedData :=
  clientERC20TypedData
    ⟨assetInfo.address, cs.address, req.payTo, decStr v, decStr (now - 30),
     decStr (now + 3600), nonce, true⟩
    config.chainId FacilitatorContractAddress

/-! # Theorems

Helper lemmas first, then one theorem per claim with its witnesses and
counterexamples. -/

/-! ## Hex round trips -/

theorem hexCharVal?_hexDigit {m : Nat} (h : m < 16) :
    hexCharVal? (hexDigit m) = some m := by
  interval_cases m <;> rfl

theorem hexEncodeL_length (bs : Bytes) :
    (hexEncodeL bs).length = 2 * bs.length := by
  induction bs with
  | nil => rfl
  | cons b rest ih => simp [hexEncodeL, ih]; omega

theorem hexDecodeL_hexEncodeL {bs : Bytes} (h : ValidBytes bs) :
    hexDecodeL (hexEncodeL bs) = some bs := by
  induction bs with
  | nil => rfl
  | cons b rest ih =>
    have hb : b < 256 := h b (List.mem_cons_self _ _)
    have hrest : ValidBytes rest := fun x hx => h x (List.mem_cons_of_mem _ hx)
    have h1 : b / 16 < 16 := by omega
    have h2 : b % 16 < 16 := by omega
    simp only [hexEncodeL, hexDecodeL, hexCharVal?_hexDigit h1,
      hexCharVal?_hexDigit h2, ih hrest]
    rw [show b / 16 * 16 + b % 16 = b by omega]

theorem hexDecodeGreedyL_hexEncodeL {bs : Bytes} (h : ValidBytes bs) :
    hexDecodeGreedyL (hexEncodeL bs) = bs := by
  induction bs with
  | nil => rfl
  | cons b rest ih =>
    have hb : b < 256 := h b (List.mem_cons_self _ _)
    have hrest : ValidBytes rest := fun x hx => h x (List.mem_cons_of_mem _ hx)
    have h1 : b / 16 < 16 := by omega
    have h2 : b % 16 < 16 := by omega
    simp only [hexEncodeL, hexDecodeGreedyL, hexCharVal?_hexDigit h1,
      hexCharVal?_hexDigit h2, ih hrest]
    rw [show b / 16 * 16 + b % 16 = b by omega]

theorem canonAddr_addrToHexString {a : Bytes} (hlen : a.length = 20)
    (hv : ValidBytes a) : canonAddr (addrToHexString a) = a := by
  have htl : (addrToHexString a).toList = '0' :: 'x' :: hexEncodeL a := rfl
  have hstrip : strip0xOrX ('0' :: 'x' :: hexEncodeL a) = hexEncodeL a := rfl
  simp only [canonAddr, htl, hstrip, padEvenHex]
  rw [if_neg (by rw [hexEncodeL_length]; omega)]
  rw [hexDecodeGreedyL_hexEncodeL hv]
  simp [bytesToAddress, hlen]

theorem HexToBytes_hex0x {bs : Bytes} (h : ValidBytes bs) :
    HexToBytes ⟨'0' :: 'x' :: hexEncodeL bs⟩ = some bs := by
  have htl : (String.mk ('0' :: 'x' :: hexEncodeL bs)).toList
      = '0' :: 'x' :: hexEncodeL bs := rfl
  simp only [HexToBytes, htl, strip0x]
  exact hexDecodeL_hexEncodeL h

theorem hexCharVal?_lt {c : Char} {v : Nat} (h : hexCharVal? c = some v) :
    v < 16 := by
  simp only [hexCharVal?] at h
  split_ifs at h <;> simp only [Option.some.injEq] at h <;> omega

theorem hexDecodeGreedyL_valid (cs : List Char) :
    ValidBytes (hexDecodeGreedyL cs) := by
  induction cs using hexDecodeGreedyL.induct with
  | case1 c1 c2 rest h l hh hl ih =>
    intro b hb
    rw [hexDecodeGreedyL, hh, hl] at hb
    simp only at hb
    rcases List.mem_cons.mp hb with h1 | h2
    · have g1 := hexCharVal?_lt hh
      have g2 := hexCharVal?_lt hl
      omega
    · exact ih b h2
  | case2 c1 c2 rest hnone =>
    intro b hb
    rw [hexDecodeGreedyL] at hb
    split at hb
    · simp_all
    · simp at hb
  | case3 l hne =>
    intro b hb
    unfold hexDecodeGreedyL at hb
    split at hb
    · simp_all
    · simp at hb

theorem bytesToAddress_length (bs : Bytes) : (bytesToAddress bs).length = 20 := by
  unfold bytesToAddress
  split <;> simp_all <;> omega

theorem bytesToAddress_valid {bs : Bytes} (h : ValidBytes bs) :
    ValidBytes (bytesToAddress bs) := by
  unfold bytesToAddress
  split
  · intro b hb
    exact h b (List.mem_of_mem_drop hb)
  · intro b hb
    rcases List.mem_append.mp hb with h1 | h2
    · have := List.eq_of_mem_replicate h1
      omega
    · exact h b h2

theorem canonAddr_length (s : String) : (canonAddr s).length = 20 :=
  bytesToAddress_length _

theorem canonAddr_valid (s : String) : ValidBytes (canonAddr s) :=
  bytesToAddress_valid (hexDecodeGreedyL_valid _)

theorem canonAddr_canon (s : String) :
    canonAddr (addrToHexString (canonAddr s)) = canonAddr s :=
  canonAddr_addrToHexString (canonAddr_length s) (canonAddr_valid s)

/-! ## Decimal round trip -/

theorem parseDigitsGo_append (l1 l2 : List Char) (acc : Nat) :
    parseDigitsGo (l1 ++ l2) acc =
      match parseDigitsGo l1 acc with
      | some m => parseDigitsGo l2 m
      | none => none := by
  induction l1 generalizing acc with
  | nil => rfl
  | cons c rest ih =>
    simp only [List.cons_append, parseDigitsGo]
    split
    · exact ih _
    · rfl

theorem parseDigitsGo_decDigit {m : Nat} (h : m < 10) (acc : Nat) :
    parseDigitsGo [decDigit m] acc = some (acc * 10 + m) := by
  interval_cases m <;> rfl

theorem natDecDigits_head (fuel n : Nat) :
    ∃ c cs, natDecDigits (fuel + 1) n = c :: cs ∧ 48 ≤ c.toNat ∧ c.toNat ≤ 57 := by
  induction fuel generalizing n with
  | zero =>
    by_cases h10 : n < 10
    · refine ⟨decDigit n, [], ?_, ?_, ?_⟩
      · simp [natDecDigits, h10]
      · interval_cases n <;> decide
      · interval_cases n <;> decide
    · refine ⟨decDigit (n % 10), [], ?_, ?_, ?_⟩
      · simp [natDecDigits, h10]
      · have : n % 10 < 10 := by omega
        interval_cases h : (n % 10) <;> decide
      · have : n % 10 < 10 := by omega
        interval_cases h : (n % 10) <;> decide
  | succ f ih =>
    by_cases h10 : n < 10
    · refine ⟨decDigit n, [], ?_, ?_, ?_⟩
      · simp [natDecDigits, h10]
      · interval_cases n <;> decide
      · interval_cases n <;> decide
    · obtain ⟨c, cs, heq, hc1, hc2⟩ := ih (n / 10)
      refine ⟨c, cs ++ [decDigit (n % 10)], ?_, hc1, hc2⟩
      rw [show natDecDigits (f + 1 + 1) n
          = natDecDigits (f + 1) (n / 10) ++ [decDigit (n % 10)] by
        simp [natDecDigits, h10]]
      rw [heq]
      rfl

theorem parseDigitsGo_natDecDigits (fuel : Nat) :
    ∀ n, n ≤ fuel → parseDigitsGo (natDecDigits (fuel + 1) n) 0 = some n := by
  induction fuel with
  | zero =>
    intro n hn
    interval_cases n
    rfl
  | succ f ih =>
    intro n hn
    by_cases h10 : n < 10
    · rw [show natDecDigits (f + 1 + 1) n = [decDigit n] by
        simp [natDecDigits, h10]]
      rw [parseDigitsGo_decDigit h10]
      simp
    · rw [show natDecDigits (f + 1 + 1) n
          = natDecDigits (f + 1) (n / 10) ++ [decDigit (n % 10)] by
        simp [natDecDigits, h10]]
      rw [parseDigitsGo_append]
      rw [ih (n / 10) (by omega)]
      simp only
      rw [parseDigitsGo_decDigit (by omega : n % 10 < 10)]
      congr 1
      omega

theorem parseDigits_natDecStr (n : Nat) : parseDigits (natDecStr n) = some n := by
  obtain ⟨c, cs, heq, _, _⟩ := natDecDigits_head n n
  unfold natDecStr
  rw [heq]
  have hstep : parseDigits (c :: cs) = parseDigitsGo (c :: cs) 0 := rfl
  rw [hstep, ← heq]
  exact parseDigitsGo_natDecDigits n n (Nat.le_refl n)

theorem parseBigInt_decStr (v : Int) : parseBigInt (decStr v) = some v := by
  cases v with
  | ofNat n =>
    obtain ⟨c, cs, heq, hc1, hc2⟩ := natDecDigits_head n n
    have htl : (decStr (Int.ofNat n)).toList = natDecStr n := rfl
    rw [parseBigInt, htl]
    rw [show natDecStr n = c :: cs from heq]
    have hne1 : c ≠ '+' := by
      intro hc; subst hc; exact absurd hc1 (by decide)
    have hne2 : c ≠ '-' := by
      intro hc; subst hc; exact absurd hc1 (by decide)
    split
    · rename_i rest hpat
      exact absurd (List.head_eq_of_cons_eq hpat.symm).symm hne1
    · rename_i rest hpat
      exact absurd (List.head_eq_of_cons_eq hpat.symm).symm hne2
    · rw [show (c :: cs : List Char) = natDecStr n from heq.symm]
      rw [parseDigits_natDecStr]
      rfl
  | negSucc m =>
    have htl : (decStr (Int.negSucc m)).toList = '-' :: natDecStr (m + 1) := rfl
    rw [parseBigInt, htl]
    show (parseDigits (natDecStr (m + 1))).map (fun n => -(n : Int))
        = some (Int.negSucc m)
    rw [parseDigits_natDecStr]
    simp [Int.negSucc_eq]

/-! ## ABI encode and decode round trip -/

theorem natToBE_length (k n : Nat) : (natToBE k n).length = k := by
  induction k generalizing n with
  | zero => rfl
  | succ j ih => simp [natToBE, ih]

theorem word32_length (n : Nat) : (word32 n).length = 32 := natToBE_length 32 n

theorem foldl_natToBE (k n acc : Nat) :
    List.foldl (fun acc b => acc * 256 + b) acc (natToBE k n)
      = acc * 256 ^ k + n % 256 ^ k := by
  induction k generalizing n acc with
  | zero => simp [natToBE, Nat.mod_one]
  | succ j ih =>
    rw [natToBE, List.foldl_append, ih]
    simp only [List.foldl_cons, List.foldl_nil]
    have key : n % 256 ^ (j + 1) = 256 * (n / 256 % 256 ^ j) + n % 256 := by
      rw [pow_succ']
      rw [Nat.mod_mul]
      ring
    rw [key, pow_succ]
    ring

theorem wordToNat_word32 {n : Nat} (h : n < 256 ^ 32) :
    wordToNat (word32 n) = n := by
  unfold wordToNat word32
  rw [foldl_natToBE, Nat.mod_eq_of_lt h]
  simp

theorem length_le_pad32 (bs : Bytes) : bs.length ≤ (pad32 bs).length := by
  simp [pad32]

theorem readWord_at (pre w post : Bytes) (hw : w.length = 32) :
    readWord (pre ++ (w ++ post)) pre.length = some w := by
  unfold readWord
  rw [if_pos (by rw [List.length_append, List.length_append, hw]; omega)]
  rw [List.drop_left, ← hw, List.take_left]

theorem abiDecodeTriple_parts (f cd z1 inner z2 w1 w2 l1 l2 : Bytes)
    (hf : f.length = 20)
    (hw1 : w1.length = 32) (hw2 : w2.length = 32)
    (hl1 : l1.length = 32) (hl2 : l2.length = 32)
    (hv1 : wordToNat w1 = 96)
    (hv2 : wordToNat w2 = 128 + (cd ++ z1).length)
    (hvl1 : wordToNat l1 = cd.length)
    (hvl2 : wordToNat l2 = inner.length) :
    abiDecodeTriple (List.replicate 12 0 ++
      (f ++ (w1 ++ (w2 ++ (l1 ++ (cd ++ (z1 ++ (l2 ++ (inner ++ z2)))))))))
      = some (f, cd, inner) := by
  suffices h : abiDecodeTriple ((List.replicate 12 0 ++ f) ++
      (w1 ++ (w2 ++ (l1 ++ ((cd ++ z1) ++ (l2 ++ (inner ++ z2)))))))
      = some (f, cd, inner) by
    rw [← h]
    congr 1
    simp [List.append_assoc]
  have hA : (List.replicate 12 0 ++ f).length = 32 := by simp [hf]
  generalize hAeq : List.replicate 12 0 ++ f = A at *
  have hAdrop : A.drop 12 = f := by
    rw [← hAeq]
    have h : List.drop (List.replicate 12 (0 : Nat)).length
        (List.replicate 12 (0 : Nat) ++ f) = f := List.drop_left _ _
    simpa using h
  generalize hT1eq : cd ++ z1 = T1 at *
  generalize hT2eq : inner ++ z2 = T2 at *
  have hcdT1 : cd.length ≤ T1.length := by rw [← hT1eq]; simp
  have hinT2 : inner.length ≤ T2.length := by rw [← hT2eq]; simp
  have e0 : readWord (A ++ (w1 ++ (w2 ++ (l1 ++ (T1 ++ (l2 ++ T2)))))) 0
      = some A := by
    have h := readWord_at [] A (w1 ++ (w2 ++ (l1 ++ (T1 ++ (l2 ++ T2))))) hA
    simpa using h
  have e32 : readWord (A ++ (w1 ++ (w2 ++ (l1 ++ (T1 ++ (l2 ++ T2)))))) 32
      = some w1 := by
    have h := readWord_at A w1 (w2 ++ (l1 ++ (T1 ++ (l2 ++ T2)))) hw1
    rwa [hA] at h
  have e64 : readWord (A ++ (w1 ++ (w2 ++ (l1 ++ (T1 ++ (l2 ++ T2)))))) 64
      = some w2 := by
    have h := readWord_at (A ++ w1) w2 (l1 ++ (T1 ++ (l2 ++ T2))) hw2
    rw [List.length_append, hA, hw1] at h
    rwa [List.append_assoc] at h
  have e96 : readWord (A ++ (w1 ++ (w2 ++ (l1 ++ (T1 ++ (l2 ++ T2)))))) 96
      = some l1 := by
    have h := readWord_at (A ++ w1 ++ w2) l1 (T1 ++ (l2 ++ T2)) hl1
    rw [List.length_append, List.length_append, hA, hw1, hw2] at h
    rwa [List.append_assoc, List.append_assoc] at h
  have eo2 : readWord (A ++ (w1 ++ (w2 ++ (l1 ++ (T1 ++ (l2 ++ T2))))))
      (128 + T1.length) = some l2 := by
    have h := readWord_at (A ++ w1 ++ w2 ++ l1 ++ T1) l2 T2 hl2
    rw [List.length_append, List.length_append, List.length_append,
      List.length_append, hA, hw1, hw2, hl1] at h
    rw [List.append_assoc, List.append_assoc, List.append_assoc,
      List.append_assoc] at h
    rw [show 32 + 32 + 32 + 32 + T1.length = 128 + T1.length by omega] at h
    exact h
  have hElen : (A ++ (w1 ++ (w2 ++ (l1 ++ (T1 ++ (l2 ++ T2)))))).length
      = 160 + T1.length + T2.length := by
    simp [hA, hw1, hw2, hl1, hl2]
    omega
  have drop128 : (A ++ (w1 ++ (w2 ++ (l1 ++ (T1 ++ (l2 ++ T2)))))).drop 128
      = T1 ++ (l2 ++ T2) := by
    have h : ((A ++ w1 ++ w2 ++ l1) ++ (T1 ++ (l2 ++ T2))).drop
        (A ++ w1 ++ w2 ++ l1).length = T1 ++ (l2 ++ T2) := List.drop_left _ _
    rw [List.length_append, List.length_append, List.length_append,
      hA, hw1, hw2, hl1] at h
    rw [List.append_assoc, List.append_assoc, List.append_assoc] at h
    exact h
  have dropO2 : (A ++ (w1 ++ (w2 ++ (l1 ++ (T1 ++ (l2 ++ T2)))))).drop
      (128 + T1.length + 32) = T2 := by
    have h : ((A ++ w1 ++ w2 ++ l1 ++ T1 ++ l2) ++ T2).drop
        (A ++ w1 ++ w2 ++ l1 ++ T1 ++ l2).length = T2 := List.drop_left _ _
    rw [List.length_append, List.length_append, List.length_append,
      List.length_append, List.length_append, hA, hw1, hw2, hl1, hl2] at h
    rw [List.append_assoc, List.append_assoc, List.append_assoc,
      List.append_assoc, List.append_assoc] at h
    rw [show 32 + 32 + 32 + 32 + T1.length + 32 = 128 + T1.length + 32
      by omega] at h
    exact h
  have hdyn1 : readDynBytes (A ++ (w1 ++ (w2 ++ (l1 ++ (T1 ++ (l2 ++ T2))))))
      96 = some cd := by
    unfold readDynBytes
    rw [e96]
    simp only [hvl1]
    rw [if_pos (by rw [hElen]; omega)]
    rw [show (96 : Nat) + 32 = 128 by omega]
    rw [drop128]
    rw [← hT1eq, List.append_assoc, List.take_left]
  have hdyn2 : readDynBytes (A ++ (w1 ++ (w2 ++ (l1 ++ (T1 ++ (l2 ++ T2))))))
      (128 + T1.length) = some inner := by
    unfold readDynBytes
    rw [eo2]
    simp only [hvl2]
    rw [if_pos (by rw [hElen]; omega)]
    rw [dropO2]
    rw [← hT2eq, List.take_left]
  unfold abiDecodeTriple
  rw [e0, e32, e64]
  simp only [hv1, hv2]
  rw [hdyn1, hdyn2]
  simp only [hAdrop]

theorem abiDecodeTriple_encode (f cd inner : Bytes) (hf : f.length = 20)
    (hcd : cd.length < 2 ^ 64) (hinner : inner.length < 2 ^ 64) :
    abiDecodeTriple (abiEncodeTriple f cd inner) = some (f, cd, inner) := by
  have hpow : (2 : Nat) ^ 64 + 160 < 256 ^ 32 := by norm_num
  have h96 : (96 : Nat) < 256 ^ 32 := by norm_num
  have hcd' : cd.length < 256 ^ 32 := by omega
  have hin' : inner.length < 256 ^ 32 := by omega
  have hoff : 128 + (cd ++ List.replicate ((32 - cd.length % 32) % 32)
      (0 : Nat)).length < 256 ^ 32 := by
    simp only [List.length_append, List.length_replicate]
    omega
  have hE : abiEncodeTriple f cd inner
      = List.replicate 12 0 ++
        (f ++ (word32 96 ++
          (word32 (128 + (cd ++ List.replicate ((32 - cd.length % 32) % 32)
              (0 : Nat)).length) ++
            (word32 cd.length ++
              (cd ++ (List.replicate ((32 - cd.length % 32) % 32) 0 ++
                (word32 inner.length ++
                  (inner ++ List.replicate ((32 - inner.length % 32) % 32)
                    0)))))))) := by
    unfold abiEncodeTriple pad32
    simp only [List.append_assoc]
  rw [hE]
  exact abiDecodeTriple_parts f cd
    (List.replicate ((32 - cd.length % 32) % 32) 0) inner
    (List.replicate ((32 - inner.length % 32) % 32) 0)
    (word32 96)
    (word32 (128 + (cd ++ List.replicate ((32 - cd.length % 32) % 32)
      (0 : Nat)).length))
    (word32 cd.length) (word32 inner.length)
    hf (word32_length _) (word32_length _) (word32_length _) (word32_length _)
    (wordToNat_word32 h96) (wordToNat_word32 hoff)
    (wordToNat_word32 hcd') (wordToNat_word32 hin')

/-! ## ERC-6492 envelope characterization -/

theorem isERC6492_append_magic (e : Bytes) :
    IsERC6492Signature (e ++ erc6492MagicBytes) = true := by
  unfold IsERC6492Signature
  rw [if_neg (by simp [erc6492MagicBytes])]
  rw [List.length_append,
    show e.length + (erc6492MagicBytes : Bytes).length - 32 = e.length by
      simp [erc6492MagicBytes]]
  rw [List.drop_left]
  simp

theorem parse_wrap6492 (f cd inner : Bytes) (hf : f.length = 20)
    (hcd : cd.length < 2 ^ 64) (hinner : inner.length < 2 ^ 64) :
    ParseERC6492Signature (wrap6492 f cd inner)
      = Except.ok ⟨f, cd, inner⟩ := by
  unfold wrap6492 ParseERC6492Signature
  rw [isERC6492_append_magic]
  simp only [Bool.true_eq_false, if_false]
  rw [List.length_append,
    show (abiEncodeTriple f cd inner).length +
        (erc6492MagicBytes : Bytes).length - 32
      = (abiEncodeTriple f cd inner).length by simp [erc6492MagicBytes]]
  rw [List.take_left]
  rw [abiDecodeTriple_encode f cd inner hf hcd hinner]

theorem isERC6492_iff (sig : Bytes) :
    IsERC6492Signature sig = true ↔
      32 ≤ sig.length ∧ sig.drop (sig.length - 32) = erc6492MagicBytes := by
  unfold IsERC6492Signature
  by_cases h : sig.length < 32
  · simp [h]
  · simp [h]
    omega

theorem notWrapped_parse (sig : Bytes) (h : IsERC6492Signature sig = false) :
    ParseERC6492Signature sig = Except.ok ⟨zero20, [], sig⟩ := by
  unfold ParseERC6492Signature
  rw [h]
  simp

theorem wrapped_parse_decode (sig : Bytes) (h : IsERC6492Signature sig = true) :
    ParseERC6492Signature sig =
      match abiDecodeTriple (sig.take (sig.length - 32)) with
      | some (f, cd, inner) => Except.ok ⟨f, cd, inner⟩
      | none => Except.error "invalid ERC-6492 signature" := by
  unfold ParseERC6492Signature
  rw [h]
  simp

theorem isERC6492_false_of_last_ne {sig : Bytes} (hlen : sig.length = 65)
    (hlast : sig.getD 64 0 ≠ 146) : IsERC6492Signature sig = false := by
  by_contra hcon
  have htrue : IsERC6492Signature sig = true := by
    revert hcon
    cases IsERC6492Signature sig <;> simp
  obtain ⟨_, hdrop⟩ := (isERC6492_iff sig).mp htrue
  rw [hlen] at hdrop
  have h31 : (sig.drop 33)[31]? = (erc6492MagicBytes : Bytes)[31]? := by
    rw [hdrop]
  rw [List.getElem?_drop] at h31
  have hmagic : (erc6492MagicBytes : Bytes)[31]? = some 146 := rfl
  rw [hmagic] at h31
  apply hlast
  rw [List.getD_eq_getElem?_getD]
  rw [show (33 : Nat) + 31 = 64 from rfl] at h31
  rw [h31]
  rfl

/-! ## Universal verification control flow -/

theorem vus_eoa_fast_path (cm : CryptoModel) (o : FacSigner)
    (signerAddress : String) (hash : TypedData) (sig : Bytes)
    (allow : Bool) (d : ERC6492SignatureData)
    (hparse : ParseERC6492Signature sig = Except.ok d)
    (hlen : d.innerSignature.length = 65)
    (hfac : d.factory = zero20) :
    VerifyUniversalSignature cm o signerAddress hash sig allow =
      (⟨(VerifyEOASignature cm hash d.innerSignature (canonAddr signerAddress)).1,
        some d,
        (VerifyEOASignature cm hash d.innerSignature (canonAddr signerAddress)).2⟩,
       []) := by
  unfold VerifyUniversalSignature
  rw [hparse]
  simp only [hlen, hfac]
  rcases hEOA : VerifyEOASignature cm hash d.innerSignature (canonAddr signerAddress)
    with ⟨v, e⟩
  simp [hEOA]

/-! ## The client-facilitator agreement pipeline -/

theorem eqFold_self (a : String) : eqFold a a = true := by
  simp [eqFold]

theorem hexString_ne_empty (cs : List Char) :
    (String.mk ('0' :: 'x' :: cs)) ≠ "" := by
  intro h
  have : ('0' :: 'x' :: cs : List Char) = [] := by
    have := congrArg String.toList h
    simpa using this
  simp at this

theorem payloadFromMap_eip3009ToMap (p : ExactEIP3009Payload)
    (tag : Option String) (hsig : p.signature ≠ "") :
    PayloadFromMap (eip3009ToMap p tag) = p := by
  unfold PayloadFromMap eip3009ToMap
  simp [hsig]

theorem eip3009TypedData_agree (auth : ExactEIP3009Authorization)
    (chainId : Int) (vc name ver : String) :
    facilitatorEIP3009TypedData auth chainId vc name ver
      = clientEIP3009TypedData auth chainId vc name ver := by
  unfold facilitatorEIP3009TypedData clientEIP3009TypedData
  simp [transferWithAuthMessage, canonAddr_canon]

theorem create_eip3009 (cs : ClientSigner) (cache : SupportCache)
    (req : PaymentRequirements) (nonce : String) (now : Int)
    (config : NetworkConfig) (assetInfo : AssetInfo) (v : Int) (sig : Bytes)
    (hnet : IsValidNetwork req.network = true)
    (hcfg : GetNetworkConfig req.network = Except.ok config)
    (hasset : GetAssetInfo req.network req.asset = Except.ok assetInfo)
    (hamount : parseBigInt req.amount = some v)
    (h3009 : assetInfo.supportsEIP3009 = true)
    (hsig : cs.signTypedData (c1TypedData cs req config assetInfo v now nonce)
      = Except.ok sig) :
    CreatePaymentPayload cs cache req nonce now =
      (Except.ok ⟨2, eip3009ToMap
        ⟨⟨'0' :: 'x' :: hexEncodeL sig⟩,
         ⟨cs.address, req.payTo, decStr v, decStr (now - 30),
          decStr (now + 3600), nonce⟩⟩
        (some "authorizationEip3009")⟩, cache, []) := by
  unfold CreatePaymentPayload
  rw [hnet]
  simp only [Bool.true_eq_false, if_false]
  rw [hcfg, hasset, hamount]
  simp only [h3009, if_true]
  unfold c1TypedData at hsig
  rw [hsig]

/-- C1: for every well-formed PaymentRequirements on a supported network
whose asset supports EIP-3009, and every payload the client scheme's
CreatePaymentPayload produces with signer address A against those
requirements (under the signer contract: a 65-byte signature with a
valid recovery id that recovers, over the typed data the client
submitted for signing, to A), the facilitator scheme's Verify accepts
the wrapped payload and reports payer A. The balance and nonce
freshness hypotheses of the claim are not needed: the off-chain Verify
checks neither. -/
theorem C1_create_then_verify_accepts (cm : CryptoModel) (o : FacSigner)
    (cs : ClientSigner) (cache cacheV : SupportCache)
    (req : PaymentRequirements) (nonce : String) (now : Int)
    (config : NetworkConfig) (assetInfo : AssetInfo) (v : Int) (sig : Bytes)
    (base : SchemePayload)
    (hscheme : req.scheme = "exact")
    (hnet : IsValidNetwork req.network = true)
    (hcfg : GetNetworkConfig req.network = Except.ok config)
    (hasset : GetAssetInfo req.network req.asset = Except.ok assetInfo)
    (hamount : parseBigInt req.amount = some v)
    (h3009 : assetInfo.supportsEIP3009 = true)
    (hsig : cs.signTypedData (c1TypedData cs req config assetInfo v now nonce)
      = Except.ok sig)
    (hlen : sig.length = 65)
    (hvb : ValidBytes sig)
    (hlast : sig.getD 64 0 = 27 ∨ sig.getD 64 0 = 28 ∨ sig.getD 64 0 = 0 ∨
      sig.getD 64 0 = 1)
    (hrec : cm.recover (c1TypedData cs req config assetInfo v now nonce)
      (normalizeV sig) = Except.ok (canonAddr cs.address))
    (hbase : (CreatePaymentPayload cs cache req nonce now).1 = Except.ok base) :
    (Verify cm o cacheV (wrapAccepted req base) req).1
      = Except.ok ⟨true, cs.address⟩ := by
  have hfull := create_eip3009 cs cache req nonce now config assetInfo v sig
    hnet hcfg hasset hamount h3009 hsig
  rw [hfull] at hbase
  simp only [Except.ok.injEq] at hbase
  subst hbase
  have hPF : PayloadFromMap (eip3009ToMap
      ⟨⟨'0' :: 'x' :: hexEncodeL sig⟩,
       ⟨cs.address, req.payTo, decStr v, decStr (now - 30),
        decStr (now + 3600), nonce⟩⟩ (some "authorizationEip3009"))
      = ⟨⟨'0' :: 'x' :: hexEncodeL sig⟩,
         ⟨cs.address, req.payTo, decStr v, decStr (now - 30),
          decStr (now + 3600), nonce⟩⟩ :=
    payloadFromMap_eip3009ToMap _ _ (hexString_ne_empty _)
  unfold Verify wrapAccepted
  simp only [hscheme]
  rw [if_neg (by simp [SchemeExact])]
  rw [if_neg (by simp)]
  rw [hcfg, hasset]
  simp only [hPF]
  rw [if_neg (by exact hexString_ne_empty _)]
  rw [if_neg (by simp [eqFold_self])]
  simp only [parseBigInt_decStr, hamount]
  rw [if_neg (lt_irrefl v)]
  unfold verifyAfterAmount verifyTypeDispatch
  simp only [eip3009ToMap]
  rw [if_pos trivial]
  simp only
  rw [HexToBytes_hex0x hvb]
  simp only [if_true]
  rw [eip3009TypedData_agree]
  have h6492 : IsERC6492Signature sig = false := by
    apply isERC6492_false_of_last_ne hlen
    rcases hlast with h | h | h | h <;> omega
  have hvus := vus_eoa_fast_path cm o cs.address
    (clientEIP3009TypedData
      ⟨cs.address, req.payTo, decStr v, decStr (now - 30),
       decStr (now + 3600), nonce⟩
      config.chainId assetInfo.address (extraName assetInfo req.extra)
      (extraVersion assetInfo req.extra))
    sig true ⟨zero20, [], sig⟩ (notWrapped_parse sig h6492) hlen rfl
  rw [hvus]
  unfold VerifyEOASignature
  rw [if_neg (by simp [hlen])]
  unfold c1TypedData at hrec
  rw [hrec]
  simp

/-- C1 witness: the concrete client and facilitator fixtures run the
whole pipeline: the payload built for one USDC on Base verifies with the
concrete payer as the reported payer. -/
theorem C1_create_then_verify_accepts_witness :
    (Verify cmW foW [] (wrapAccepted reqW baseW) reqW).1
      = Except.ok ⟨true, addrW⟩ :=
  C1_create_then_verify_accepts cmW foW csW [] [] reqW nonceW 1000
    ⟨8453, usdcBase, [("USDC", usdcBase)]⟩ usdcBase 1000000 sigW baseW
    rfl rfl rfl rfl rfl rfl rfl rfl (by decide) (Or.inl rfl) rfl rfl

/-- C2 counterexample: at verify time now = 1000, a payload whose
authorization window is validAfter 5, validBefore 10 (so now is far past
validBefore) is accepted by Verify with isValid true: the off-chain
Verify performs no validity window check at all. -/
theorem C2_window_counterexample :
    parseBigInt "10" = some 10 ∧ ((10 : Int) < 1000) ∧
    (Verify cmW foW [] (mkPayloadW "5" "10" sigHexW) reqW).1
      = Except.ok ⟨true, addrW⟩ :=
  ⟨rfl, by norm_num, rfl⟩

/-- C2 amended: the facilitator Verify does not consult the clock or the
authorization validity window: for every window strings va and vb, every
clock value now strictly outside the parsed window, and every signature
satisfying the EOA contract, Verify still returns isValid true; the
window bounds are enforced only on-chain by the facilitator contract at
settlement time. -/
theorem C2_verify_ignores_validity_window (cm : CryptoModel) (o : FacSigner)
    (cacheV : SupportCache) (va vb : String) (now ia ib : Int) (sig : Bytes)
    (hva : parseBigInt va = some ia) (hvbp : parseBigInt vb = some ib)
    (hwin : now < ia ∨ ib < now)
    (hlen : sig.length = 65) (hbytes : ValidBytes sig)
    (hlast : sig.getD 64 0 = 27 ∨ sig.getD 64 0 = 28 ∨ sig.getD 64 0 = 0 ∨
      sig.getD 64 0 = 1)
    (hrec : cm.recover (c2TypedData va vb) (normalizeV sig)
      = Except.ok (canonAddr addrW)) :
    (Verify cm o cacheV (mkPayloadW va vb ⟨'0' :: 'x' :: hexEncodeL sig⟩)
      reqW).1 = Except.ok ⟨true, addrW⟩ := by
  unfold Verify mkPayloadW reqW
  rw [if_neg (by simp [SchemeExact])]
  rw [if_neg (by simp)]
  rw [show GetNetworkConfig "eip155:8453"
    = Except.ok ⟨8453, usdcBase, [("USDC", usdcBase)]⟩ from rfl]
  rw [show GetAssetInfo "eip155:8453" "USDC" = Except.ok usdcBase from rfl]
  simp only [PayloadFromMap, Option.some_bind, Option.getD_some]
  rw [if_neg (by exact hexString_ne_empty _)]
  rw [if_neg (by simp [eqFold_self])]
  rw [show parseBigInt "1000000" = some 1000000 from rfl]
  simp only
  rw [if_neg (lt_irrefl (1000000 : Int))]
  unfold verifyAfterAmount verifyTypeDispatch
  simp only
  rw [if_pos trivial]
  simp only
  rw [HexToBytes_hex0x hbytes]
  simp only [if_true]
  have h6492 : IsERC6492Signature sig = false := by
    apply isERC6492_false_of_last_ne hlen
    rcases hlast with h | h | h | h <;> omega
  have hvus := vus_eoa_fast_path cm o addrW
    (facilitatorEIP3009TypedData ⟨addrW, payToW, "1000000", va, vb, nonceW⟩
      8453 usdcBase.address "USD Coin" "2")
    sig true ⟨zero20, [], sig⟩ (notWrapped_parse sig h6492) hlen rfl
  simp only [show extraName usdcBase none = "USD Coin" from rfl,
    show extraVersion usdcBase none = "2" from rfl]
  rw [hvus]
  unfold VerifyEOASignature
  rw [if_neg (by simp [hlen])]
  unfold c2TypedData at hrec
  rw [hrec]
  simp

/-- C2 amended witness: the concrete instantiation at clock 1000 with
window 5 to 10. -/
theorem C2_verify_ignores_validity_window_witness :
    ((1000 : Int) < 5 ∨ (10 : Int) < 1000) ∧
    (Verify cmW foW [] (mkPayloadW "5" "10" ⟨'0' :: 'x' :: hexEncodeL sigW⟩)
      reqW).1 = Except.ok ⟨true, addrW⟩ :=
  ⟨Or.inr (by norm_num),
   C2_verify_ignores_validity_window cmW foW [] "5" "10" 1000 5 10 sigW
     rfl rfl (Or.inr (by norm_num)) rfl (by decide) (Or.inl rfl) rfl⟩

/-- C3: at a concrete payload whose signature recovery mismatches (the
crypto model recovers a different address), Verify fails, but the error
kind it carries is the literal invalid_signature, not the declared
constant ErrInvalidSignature = invalid_exact_evm_payload_signature that
constants.go defines for exactly this case (and that the spec
documents): the constant is never used by Verify. -/
theorem C3_recovery_mismatch_kind :
    (Verify cmBadW foW [] (mkPayloadW "970" "4600" sigHexW) reqW).1
      = Except.error ⟨"invalid_signature", addrW, "eip155:8453", none⟩ ∧
    "invalid_signature" ≠ ErrInvalidSignature :=
  ⟨rfl, by decide⟩

/-- C4: whenever the parsed ERC-6492 envelope of a signature has an
inner signature of exactly 65 bytes and a zero factory address, the
universal verifier takes the EOA fast path: its result is exactly the
EOA recovery result against the signer address, its call trace is empty
(in particular getCode is never invoked), and the result is identical
under any other facilitator signer oracle. -/
theorem C4_eoa_fast_path_no_getCode (cm : CryptoModel) (o oAlt : FacSigner)
    (signerAddress : String) (hash : TypedData) (sig : Bytes) (allow : Bool)
    (d : ERC6492SignatureData)
    (hparse : ParseERC6492Signature sig = Except.ok d)
    (hlen : d.innerSignature.length = 65)
    (hfac : d.factory = zero20) :
    VerifyUniversalSignature cm o signerAddress hash sig allow =
      (⟨(VerifyEOASignature cm hash d.innerSignature (canonAddr signerAddress)).1,
        some d,
        (VerifyEOASignature cm hash d.innerSignature (canonAddr signerAddress)).2⟩,
       []) ∧
    VerifyUniversalSignature cm o signerAddress hash sig allow
      = VerifyUniversalSignature cm oAlt signerAddress hash sig allow := by
  have h := vus_eoa_fast_path cm o signerAddress hash sig allow d hparse hlen hfac
  have h' := vus_eoa_fast_path cm oAlt signerAddress hash sig allow d hparse
    hlen hfac
  exact ⟨h, h.trans h'.symm⟩

/-- C4 witness: the concrete 65-byte signature under two oracles whose
chain responses differ. -/
theorem C4_eoa_fast_path_no_getCode_witness :
    VerifyUniversalSignature cmW foW addrW (c2TypedData "970" "4600") sigW true =
      (⟨(VerifyEOASignature cmW (c2TypedData "970" "4600") sigW
          (canonAddr addrW)).1,
        some ⟨zero20, [], sigW⟩,
        (VerifyEOASignature cmW (c2TypedData "970" "4600") sigW
          (canonAddr addrW)).2⟩,
       []) ∧
    VerifyUniversalSignature cmW foW addrW (c2TypedData "970" "4600") sigW true
      = VerifyUniversalSignature cmW foRevertW addrW (c2TypedData "970" "4600")
          sigW true :=
  C4_eoa_fast_path_no_getCode cmW foW foRevertW addrW (c2TypedData "970" "4600")
    sigW true ⟨zero20, [], sigW⟩ rfl rfl rfl

/-- C5: the ERC-6492 envelope functions behave as specified: a signature
is wrapped exactly when it is at least 32 bytes long and its last 32
bytes are the magic constant; parsing a non-wrapped signature returns it
unchanged with a zero factory and empty calldata; parsing a wrapped
signature strips the suffix and ABI-decodes the (address, bytes, bytes)
prefix, recovering exactly the components that were encoded; and a
signature carrying the suffix whose prefix does not decode is an
error. -/
theorem C5_erc6492_envelope (sig f cd inner : Bytes) (hf : f.length = 20)
    (hcd : cd.length < 2 ^ 64) (hinner : inner.length < 2 ^ 64) :
    (IsERC6492Signature sig = true ↔
      32 ≤ sig.length ∧ sig.drop (sig.length - 32) = erc6492MagicBytes) ∧
    ParseERC6492Signature (wrap6492 f cd inner) = Except.ok ⟨f, cd, inner⟩ ∧
    (IsERC6492Signature sig = false →
      ParseERC6492Signature sig = Except.ok ⟨zero20, [], sig⟩) ∧
    (IsERC6492Signature sig = true →
      abiDecodeTriple (sig.take (sig.length - 32)) = none →
      ParseERC6492Signature sig = Except.error "invalid ERC-6492 signature") := by
  refine ⟨isERC6492_iff sig, parse_wrap6492 f cd inner hf hcd hinner,
    notWrapped_parse sig, ?_⟩
  intro hw hdec
  rw [wrapped_parse_decode sig hw, hdec]

set_option maxRecDepth 4000 in
/-- C5 witness: a concrete wrapped signature round-trips through parse,
a concrete non-wrapped signature is returned unchanged, and a two-byte
prefix before the magic suffix fails to decode. -/
theorem C5_erc6492_envelope_witness :
    IsERC6492Signature wsigW = true ∧
    ParseERC6492Signature (wrap6492 factoryW calldataW innerW)
      = Except.ok ⟨factoryW, calldataW, innerW⟩ ∧
    ParseERC6492Signature sigW = Except.ok ⟨zero20, [], sigW⟩ ∧
    ParseERC6492Signature ([0, 1] ++ erc6492MagicBytes)
      = Except.error "invalid ERC-6492 signature" := by
  refine ⟨by decide, (C5_erc6492_envelope wsigW factoryW calldataW innerW
    (by decide) (by decide) (by decide)).2.1, ?_, ?_⟩
  · exact (C5_erc6492_envelope sigW factoryW calldataW innerW (by decide)
      (by decide) (by decide)).2.2.1 (by decide)
  · exact (C5_erc6492_envelope ([0, 1] ++ erc6492MagicBytes) factoryW calldataW
      innerW (by decide) (by decide) (by decide)).2.2.2 (by decide) (by decide)


/-- Every outcome of the post-amount stage of Verify is either success or
an error whose reason is one of the four signature-stage reasons; in
particular it is never recipient_mismatch or insufficient_amount. -/
theorem verifyAfterAmount_reasons (cm : CryptoModel) (o : FacSigner)
    (cache : SupportCache) (payload : PaymentPayload)
    (req : PaymentRequirements) (config : NetworkConfig)
    (assetInfo : AssetInfo) (evmPayload : ExactEIP3009Payload) :
    (∃ r, (verifyAfterAmount cm o cache payload req config assetInfo
      evmPayload).1 = Except.ok r) ∨
    (∃ e, (verifyAfterAmount cm o cache payload req config assetInfo
      evmPayload).1 = Except.error e ∧
      (e.reason = "invalid_payload_type" ∨
       e.reason = "invalid_signature_format" ∨
       e.reason = "failed_to_verify_signature" ∨
       e.reason = "invalid_signature")) := by
  unfold verifyAfterAmount verifyTypeDispatch
  rcases htag : payload.payload.typeTag with _ | t
  all_goals simp only
  case some =>
    by_cases h1 : t = "authorizationEip3009"
    case pos =>
      rw [if_pos h1]
      simp only
      rcases HexToBytes evmPayload.signature with _ | sb
      · exact Or.inr ⟨_, rfl, Or.inr (Or.inl rfl)⟩
      · simp only [if_true]
        rcases hv : (VerifyUniversalSignature cm o
          evmPayload.authorization.fromAddr
          (facilitatorEIP3009TypedData evmPayload.authorization config.chainId
            assetInfo.address (extraName assetInfo req.extra)
            (extraVersion assetInfo req.extra)) sb true) with ⟨vr, tr⟩
        rcases vr.err with _ | e
        all_goals simp only
        · rcases vr.sigData with _ | sd
          all_goals simp only
          · by_cases hval : vr.valid = false
            · rw [if_pos hval]
              exact Or.inr ⟨_, rfl, Or.inr (Or.inr (Or.inr rfl))⟩
            · rw [if_neg hval]
              exact Or.inl ⟨_, rfl⟩
          · by_cases hfac : sd.factory ≠ zero20
            · rw [if_pos hfac]
              rcases o.getCode evmPayload.authorization.fromAddr with e | c
              · exact Or.inr ⟨_, rfl, Or.inr (Or.inr (Or.inl rfl))⟩
              · by_cases hval : vr.valid = false
                · rw [if_pos hval]
                  exact Or.inr ⟨_, rfl, Or.inr (Or.inr (Or.inr rfl))⟩
                · rw [if_neg hval]
                  exact Or.inl ⟨_, rfl⟩
            · rw [if_neg hfac]
              by_cases hval : vr.valid = false
              · rw [if_pos hval]
                exact Or.inr ⟨_, rfl, Or.inr (Or.inr (Or.inr rfl))⟩
              · rw [if_neg hval]
                exact Or.inl ⟨_, rfl⟩
        · exact Or.inr ⟨_, rfl, Or.inr (Or.inr (Or.inl rfl))⟩
    case neg =>
      rw [if_neg h1]
      by_cases h2 : t = "authorization"
      case pos =>
        rw [if_pos h2]
        simp only
        rcases HexToBytes evmPayload.signature with _ | sb
        · exact Or.inr ⟨_, rfl, Or.inr (Or.inl rfl)⟩
        · simp only []
          rw [if_neg (by simp)]
          rcases hv : (VerifyUniversalSignature cm o
            evmPayload.authorization.fromAddr
            (facilitatorERC20TypedData
              (PayloadERC20FromMap payload.payload).authorization
              config.chainId FacilitatorContractAddress) sb true) with ⟨vr, tr⟩
          rcases vr.err with _ | e
          all_goals simp only
          · by_cases hval : vr.valid = false
            · rw [if_pos hval]
              exact Or.inr ⟨_, rfl, Or.inr (Or.inr (Or.inr rfl))⟩
            · rw [if_neg hval]
              exact Or.inl ⟨_, rfl⟩
          · exact Or.inr ⟨_, rfl, Or.inr (Or.inr (Or.inl rfl))⟩
      case neg =>
        rw [if_neg h2]
        exact Or.inr ⟨_, rfl, Or.inl rfl⟩
  case none =>
    rcases hsup : VerifyEIP3009Support o.probe3009 cache config.chainId
      evmPayload.authorization.fromAddr assetInfo.address with ⟨sup, c2, tr2⟩
    simp only [hsup]
    rcases HexToBytes evmPayload.signature with _ | sb
    · exact Or.inr ⟨_, rfl, Or.inr (Or.inl rfl)⟩
    · simp only []
      cases sup
      · rw [if_neg (by simp)]
        rcases hv : (VerifyUniversalSignature cm o
          evmPayload.authorization.fromAddr
          (facilitatorERC20TypedData
            (PayloadERC20FromMap payload.payload).authorization
            config.chainId FacilitatorContractAddress) sb true) with ⟨vr, tr⟩
        rcases vr.err with _ | e
        all_goals simp only
        · by_cases hval : vr.valid = false
          · rw [if_pos hval]
            exact Or.inr ⟨_, rfl, Or.inr (Or.inr (Or.inr rfl))⟩
          · rw [if_neg hval]
            exact Or.inl ⟨_, rfl⟩
        · exact Or.inr ⟨_, rfl, Or.inr (Or.inr (Or.inl rfl))⟩
      · simp only [if_true]
        rcases hv : (VerifyUniversalSignature cm o
          evmPayload.authorization.fromAddr
          (facilitatorEIP3009TypedData evmPayload.authorization config.chainId
            assetInfo.address (extraName assetInfo req.extra)
            (extraVersion assetInfo req.extra)) sb true) with ⟨vr, tr⟩
        rcases vr.err with _ | e
        all_goals simp only
        · rcases vr.sigData with _ | sd
          all_goals simp only
          · by_cases hval : vr.valid = false
            · rw [if_pos hval]
              exact Or.inr ⟨_, rfl, Or.inr (Or.inr (Or.inr rfl))⟩
            · rw [if_neg hval]
              exact Or.inl ⟨_, rfl⟩
          · by_cases hfac : sd.factory ≠ zero20
            · rw [if_pos hfac]
              rcases o.getCode evmPayload.authorization.fromAddr with e | c
              · exact Or.inr ⟨_, rfl, Or.inr (Or.inr (Or.inl rfl))⟩
              · by_cases hval : vr.valid = false
                · rw [if_pos hval]
                  exact Or.inr ⟨_, rfl, Or.inr (Or.inr (Or.inr rfl))⟩
                · rw [if_neg hval]
                  exact Or.inl ⟨_, rfl⟩
            · rw [if_neg hfac]
              by_cases hval : vr.valid = false
              · rw [if_pos hval]
                exact Or.inr ⟨_, rfl, Or.inr (Or.inr (Or.inr rfl))⟩
              · rw [if_neg hval]
                exact Or.inl ⟨_, rfl⟩
        · exact Or.inr ⟨_, rfl, Or.inr (Or.inr (Or.inl rfl))⟩

/-- Verify, once the scheme/network/config/asset/signature/parse gates
pass, is the recipient gate, then the amount gate, then the
signature-verification stage. -/
theorem verify_amount_cases (cm : CryptoModel) (o : FacSigner)
    (cacheV : SupportCache) (payload : PaymentPayload)
    (req : PaymentRequirements) (config : NetworkConfig)
    (assetInfo : AssetInfo) (av rv : Int)
    (h1 : payload.accepted.scheme = SchemeExact)
    (h2 : payload.accepted.network = req.network)
    (h3 : GetNetworkConfig req.network = Except.ok config)
    (h4 : GetAssetInfo req.network req.asset = Except.ok assetInfo)
    (h5 : (PayloadFromMap payload.payload).signature ≠ "")
    (h6 : parseBigInt (PayloadFromMap payload.payload).authorization.value
      = some av)
    (h7 : parseBigInt req.amount = some rv) :
    Verify cm o cacheV payload req =
      if eqFold (PayloadFromMap payload.payload).authorization.toAddr
          req.payTo = false then
        (Except.error ⟨"recipient_mismatch", "", req.network, none⟩, cacheV, [])
      else if av < rv then
        (Except.error ⟨"insufficient_amount",
          (PayloadFromMap payload.payload).authorization.fromAddr,
          req.network, none⟩, cacheV, [])
      else
        verifyAfterAmount cm o cacheV payload req config assetInfo
          (PayloadFromMap payload.payload) := by
  unfold Verify
  rw [if_neg (by simp [h1])]
  rw [if_neg (by simp [h2])]
  rw [h3, h4]
  simp only []
  rw [if_neg h5]
  by_cases hfold : eqFold (PayloadFromMap payload.payload).authorization.toAddr
      req.payTo = false
  · rw [if_pos hfold, if_pos hfold]
  · rw [if_neg hfold, if_neg hfold]
    rw [h6, h7]

/-- C6: under parsing hypotheses, Verify fails with recipient_mismatch
exactly when the authorization's to address differs case-insensitively
from requirements.payTo; fails with insufficient_amount exactly when the
recipient matches and auth.value < requirements.amount (so the comparison
is inclusive: value = required is never rejected by this gate); and when
the recipient matches and value is not below the requirement, Verify
proceeds to the signature-verification stage. -/
theorem C6_recipient_amount_gates (cm : CryptoModel) (o : FacSigner)
    (cacheV : SupportCache) (payload : PaymentPayload)
    (req : PaymentRequirements) (config : NetworkConfig)
    (assetInfo : AssetInfo) (av rv : Int)
    (h1 : payload.accepted.scheme = SchemeExact)
    (h2 : payload.accepted.network = req.network)
    (h3 : GetNetworkConfig req.network = Except.ok config)
    (h4 : GetAssetInfo req.network req.asset = Except.ok assetInfo)
    (h5 : (PayloadFromMap payload.payload).signature ≠ "")
    (h6 : parseBigInt (PayloadFromMap payload.payload).authorization.value
      = some av)
    (h7 : parseBigInt req.amount = some rv) :
    ((Verify cm o cacheV payload req).1
        = Except.error ⟨"recipient_mismatch", "", req.network, none⟩
      ↔ eqFold (PayloadFromMap payload.payload).authorization.toAddr
          req.payTo = false) ∧
    ((Verify cm o cacheV payload req).1
        = Except.error ⟨"insufficient_amount",
            (PayloadFromMap payload.payload).authorization.fromAddr,
            req.network, none⟩
      ↔ (eqFold (PayloadFromMap payload.payload).authorization.toAddr
          req.payTo = true ∧ av < rv)) ∧
    (eqFold (PayloadFromMap payload.payload).authorization.toAddr
        req.payTo = true → ¬ av < rv →
      Verify cm o cacheV payload req =
        verifyAfterAmount cm o cacheV payload req config assetInfo
          (PayloadFromMap payload.payload)) := by
  have hV := verify_amount_cases cm o cacheV payload req config assetInfo av rv
    h1 h2 h3 h4 h5 h6 h7
  have h3c : eqFold (PayloadFromMap payload.payload).authorization.toAddr
      req.payTo = true → ¬ av < rv →
      Verify cm o cacheV payload req =
        verifyAfterAmount cm o cacheV payload req config assetInfo
          (PayloadFromMap payload.payload) := by
    intro hf hl
    rw [hV, if_neg (by simp [hf]), if_neg hl]
  have hMain : ((Verify cm o cacheV payload req).1
        = Except.error ⟨"recipient_mismatch", "", req.network, none⟩
      ↔ eqFold (PayloadFromMap payload.payload).authorization.toAddr
          req.payTo = false) ∧
      ((Verify cm o cacheV payload req).1
        = Except.error ⟨"insufficient_amount",
            (PayloadFromMap payload.payload).authorization.fromAddr,
            req.network, none⟩
      ↔ (eqFold (PayloadFromMap payload.payload).authorization.toAddr
          req.payTo = true ∧ av < rv)) := by
    by_cases hfold : eqFold
        (PayloadFromMap payload.payload).authorization.toAddr
        req.payTo = false
    · rw [hV, if_pos hfold]
      simp [hfold]
    · have hfold2 : eqFold
          (PayloadFromMap payload.payload).authorization.toAddr
          req.payTo = true := by
        revert hfold
        cases eqFold (PayloadFromMap payload.payload).authorization.toAddr
          req.payTo <;> simp
      rw [hV, if_neg hfold]
      by_cases hlt : av < rv
      · rw [if_pos hlt]
        simp [hfold2, hlt]
      · rw [if_neg hlt]
        rcases verifyAfterAmount_reasons cm o cacheV payload req config
            assetInfo (PayloadFromMap payload.payload)
          with ⟨r, hr⟩ | ⟨e, he, hreason⟩
        · rw [hr]
          simp [hfold2, hlt]
        · rw [he]
          have hner : e.reason ≠ "recipient_mismatch" := by
            rcases hreason with h | h | h | h <;> rw [h] <;> decide
          have hnei : e.reason ≠ "insufficient_amount" := by
            rcases hreason with h | h | h | h <;> rw [h] <;> decide
          constructor
          · constructor
            · intro hc
              exfalso
              apply hner
              simp only [Except.error.injEq] at hc
              rw [hc]
            · intro hR
              exact absurd hR (by simp [hfold2])
          · constructor
            · intro hc
              exfalso
              apply hnei
              simp only [Except.error.injEq] at hc
              rw [hc]
            · intro hR
              exact absurd hR.2 hlt
  exact ⟨hMain.1, hMain.2, h3c⟩


/-- C6 witness: with the concrete fixtures, raising the required amount
to 1000001 makes Verify fail with insufficient_amount (value 1000000 is
one below), redirecting payTo makes it fail with recipient_mismatch, and
with the matching recipient and equal value 1000000 Verify proceeds to
the signature-verification stage. -/
theorem C6_recipient_amount_gates_witness :
    (Verify cmW foW [] (mkPayloadW "970" "4600" sigHexW)
        ⟨"exact", "eip155:8453", "USDC", "1000001", payToW, none⟩).1
      = Except.error ⟨"insufficient_amount", addrW, "eip155:8453", none⟩ ∧
    (Verify cmW foW [] (mkPayloadW "970" "4600" sigHexW)
        ⟨"exact", "eip155:8453", "USDC", "1000000", addrW, none⟩).1
      = Except.error ⟨"recipient_mismatch", "", "eip155:8453", none⟩ ∧
    Verify cmW foW [] (mkPayloadW "970" "4600" sigHexW) reqW
      = verifyAfterAmount cmW foW [] (mkPayloadW "970" "4600" sigHexW) reqW
          ⟨8453, usdcBase, [("USDC", usdcBase)]⟩ usdcBase
          (PayloadFromMap (mkPayloadW "970" "4600" sigHexW).payload) := by
  refine ⟨?_, ?_, ?_⟩
  · exact (C6_recipient_amount_gates cmW foW [] (mkPayloadW "970" "4600" sigHexW)
      ⟨"exact", "eip155:8453", "USDC", "1000001", payToW, none⟩
      ⟨8453, usdcBase, [("USDC", usdcBase)]⟩ usdcBase 1000000 1000001
      rfl rfl rfl rfl (by decide) (by decide) (by decide)).2.1.mpr
      ⟨by decide, by decide⟩
  · exact (C6_recipient_amount_gates cmW foW [] (mkPayloadW "970" "4600" sigHexW)
      ⟨"exact", "eip155:8453", "USDC", "1000000", addrW, none⟩
      ⟨8453, usdcBase, [("USDC", usdcBase)]⟩ usdcBase 1000000 1000000
      rfl rfl rfl rfl (by decide) (by decide) (by decide)).1.mpr (by decide)
  · exact (C6_recipient_amount_gates cmW foW [] (mkPayloadW "970" "4600" sigHexW)
      reqW ⟨8453, usdcBase, [("USDC", usdcBase)]⟩ usdcBase 1000000 1000000
      rfl rfl rfl rfl (by decide) (by decide) (by decide)).2.2
      (by decide) (by decide)


/-- Every chain interaction of VerifyUniversalSignature is read-only. -/
theorem vus_trace_readonly (cm : CryptoModel) (o : FacSigner)
    (a : String) (h : TypedData) (sig : Bytes) (b : Bool) :
    ∀ e ∈ (VerifyUniversalSignature cm o a h sig b).2, readOnlyEvt e = true := by
  intro e he
  unfold VerifyUniversalSignature VerifyEIP1271Signature at he
  repeat' split at he
  all_goals try simp_all [readOnlyEvt, apply_ite]
  all_goals
    (rename_i hA hB hC heq
     split at heq <;> (try split at heq) <;>
       (injection heq with h1 h2
        subst h2
        rcases he with rfl | he <;> simp_all [readOnlyEvt]))

/-- Every chain interaction of the capability probe is read-only. -/
theorem probe_trace_readonly (p : String → String → Option String)
    (cache : SupportCache) (chainId : Int) (f t : String) :
    ∀ e ∈ (VerifyEIP3009Support p cache chainId f t).2.2,
      readOnlyEvt e = true := by
  intro e he
  simp only [VerifyEIP3009Support] at he
  rcases hlook : List.lookup (cacheKey chainId t) cache with _ | v <;>
    rw [hlook] at he <;> simp_all [readOnlyEvt]

/-- Every chain interaction of the type dispatcher is read-only. -/
theorem dispatch_trace_readonly (o : FacSigner) (cache : SupportCache)
    (chainId : Int) (f a : String) (tt : Option String) (n : String) :
    ∀ e ∈ (verifyTypeDispatch o cache chainId f a tt n).2.2,
      readOnlyEvt e = true := by
  intro e he
  rcases tt with _ | t
  · simp only [verifyTypeDispatch] at he
    rcases hves : VerifyEIP3009Support o.probe3009 cache chainId f a
      with ⟨sup, c2, tr2⟩
    rw [hves] at he
    simp only [] at he
    have hmem := probe_trace_readonly o.probe3009 cache chainId f a e
    rw [hves] at hmem
    exact hmem (by simpa using he)
  · simp only [verifyTypeDispatch] at he
    by_cases h1 : t = "authorizationEip3009" <;>
      by_cases h2 : t = "authorization" <;>
        simp_all [readOnlyEvt]

/-- Every chain interaction of the post-amount verify stage is
read-only. -/
theorem verifyAfterAmount_trace_readonly (cm : CryptoModel) (o : FacSigner)
    (cache : SupportCache) (payload : PaymentPayload)
    (req : PaymentRequirements) (config : NetworkConfig)
    (assetInfo : AssetInfo) (ep : ExactEIP3009Payload) :
    ∀ e ∈ (verifyAfterAmount cm o cache payload req config assetInfo ep).2.2,
      readOnlyEvt e = true := by
  intro e he
  simp only [verifyAfterAmount] at he
  rcases hdisp : verifyTypeDispatch o cache config.chainId
      ep.authorization.fromAddr assetInfo.address payload.payload.typeTag
      req.network with ⟨dres, cache1, tr1⟩
  rw [hdisp] at he
  have htr1 : ∀ x ∈ tr1, readOnlyEvt x = true := by
    have h := dispatch_trace_readonly o cache config.chainId
      ep.authorization.fromAddr assetInfo.address payload.payload.typeTag
      req.network
    rw [hdisp] at h
    exact h
  rcases dres with eV | isE
  · simp only [] at he
    exact htr1 e he
  · simp only [] at he
    rcases hhex : HexToBytes ep.signature with _ | sb <;> rw [hhex] at he <;>
      simp only [] at he
    · exact htr1 e he
    · cases isE
      case false =>
        rw [if_neg (by simp)] at he
        rcases hvus : VerifyUniversalSignature cm o ep.authorization.fromAddr
            (facilitatorERC20TypedData
              (PayloadERC20FromMap payload.payload).authorization
              config.chainId FacilitatorContractAddress) sb true with ⟨vr, tr2⟩
        rw [hvus] at he
        simp only [] at he
        have htr2 : ∀ x ∈ tr2, readOnlyEvt x = true := by
          have h := vus_trace_readonly cm o ep.authorization.fromAddr
            (facilitatorERC20TypedData
              (PayloadERC20FromMap payload.payload).authorization
              config.chainId FacilitatorContractAddress) sb true
          rw [hvus] at h
          exact h
        repeat' split at he
        all_goals
          (rcases List.mem_append.mp he with h | h
           · exact htr1 e h
           · exact htr2 e h)
      case true =>
        rw [if_pos rfl] at he
        rcases hvus : VerifyUniversalSignature cm o ep.authorization.fromAddr
            (facilitatorEIP3009TypedData ep.authorization config.chainId
              assetInfo.address (extraName assetInfo req.extra)
              (extraVersion assetInfo req.extra)) sb true with ⟨vr, tr2⟩
        rw [hvus] at he
        simp only [] at he
        have htr2 : ∀ x ∈ tr2, readOnlyEvt x = true := by
          have h := vus_trace_readonly cm o ep.authorization.fromAddr
            (facilitatorEIP3009TypedData ep.authorization config.chainId
              assetInfo.address (extraName assetInfo req.extra)
              (extraVersion assetInfo req.extra)) sb true
          rw [hvus] at h
          exact h
        repeat' split at he
        all_goals first
          | (rcases List.mem_append.mp he with h | h
             · exact htr1 e h
             · exact htr2 e h)
          | (rcases List.mem_append.mp he with h | h
             · rcases List.mem_append.mp h with h2 | h2
               · exact htr1 e h2
               · exact htr2 e h2
             · simp only [List.mem_singleton] at h
               subst h
               rfl)

/-- Verify performs only read-only chain interactions: it never sends a
transaction or writes a settlement. -/
theorem verify_trace_readonly (cm : CryptoModel) (o : FacSigner)
    (cacheV : SupportCache) (payload : PaymentPayload)
    (req : PaymentRequirements) :
    ∀ e ∈ (Verify cm o cacheV payload req).2.2, readOnlyEvt e = true := by
  intro e he
  unfold Verify at he
  repeat'
    first
      | exact verifyAfterAmount_trace_readonly cm o cacheV payload req _ _ _
          e he
      | simp at he
      | split at he

/-- C7: when the parsed signature envelope of a verified payload carries
a nonzero factory with non-empty calldata and getCode on the payer is
empty, Settle with deploy-on-settle disabled fails with error kind
invalid_exact_evm_payload_undeployed_smart_wallet and its whole call
trace is read-only (no settlement or deployment transaction was sent);
with deploy-on-settle enabled, the factory calldata is sent as a raw
transaction to the factory, Settle blocks on that transaction's receipt,
and a reverted deployment aborts settlement with kind
smart_wallet_deployment_failed. -/
theorem C7_deploy_on_settle (cm : CryptoModel) (o : FacSigner)
    (cacheV cache1 : SupportCache) (payload : PaymentPayload)
    (req : PaymentRequirements) (resp : VerifyResponse) (tr1 : List CallEvt)
    (assetInfo : AssetInfo) (sigBytes : Bytes)
    (sigData : ERC6492SignatureData) (tx : String) (bn : Nat) (th : String)
    (hV : Verify cm o cacheV payload req = (Except.ok resp, cache1, tr1))
    (hA : GetAssetInfo req.network req.asset = Except.ok assetInfo)
    (hhex : HexToBytes (PayloadFromMap payload.payload).signature
      = some sigBytes)
    (hparse : ParseERC6492Signature sigBytes = Except.ok sigData)
    (hfac : sigData.factory ≠ zero20)
    (hcd : sigData.factoryCalldata.length > 0)
    (hcode : o.getCode (PayloadFromMap payload.payload).authorization.fromAddr
      = Except.ok [])
    (hsend : o.sendTransaction (addrToHexString sigData.factory)
      sigData.factoryCalldata = Except.ok tx)
    (hrcpt : o.waitForReceipt tx = Except.ok ⟨0, bn, th⟩) :
    (Settle cm o false cacheV payload req =
      (Except.error ⟨ErrUndeployedSmartWallet, resp.payer,
        payload.accepted.network, "", none⟩, cache1,
       tr1 ++ [CallEvt.getCode
         (PayloadFromMap payload.payload).authorization.fromAddr])) ∧
    (∀ e ∈ (Settle cm o false cacheV payload req).2.2,
      readOnlyEvt e = true) ∧
    (Settle cm o true cacheV payload req =
      (Except.error ⟨ErrSmartWalletDeploymentFailed, resp.payer,
        payload.accepted.network, "",
        some "deployment transaction reverted"⟩, cache1,
       tr1 ++ [CallEvt.getCode
           (PayloadFromMap payload.payload).authorization.fromAddr,
         CallEvt.sendTx (addrToHexString sigData.factory)
           sigData.factoryCalldata,
         CallEvt.waitReceipt tx])) := by
  have htr1 : ∀ x ∈ tr1, readOnlyEvt x = true := by
    have h := verify_trace_readonly cm o cacheV payload req
    rw [hV] at h
    exact h
  have hdisabled : Settle cm o false cacheV payload req =
      (Except.error ⟨ErrUndeployedSmartWallet, resp.payer,
        payload.accepted.network, "", none⟩, cache1,
       tr1 ++ [CallEvt.getCode
         (PayloadFromMap payload.payload).authorization.fromAddr]) := by
    unfold Settle
    rw [hV]
    simp only []
    rw [hA]
    simp only []
    rw [hhex]
    simp only []
    rw [hparse]
    simp only []
    simp only [settleAfterParse]
    rw [if_pos ⟨hfac, hcd⟩]
    rw [hcode]
    simp only []
    rw [if_pos (by simp)]
    rfl
  refine ⟨hdisabled, ?_, ?_⟩
  · rw [hdisabled]
    intro e he
    rcases List.mem_append.mp he with h | h
    · exact htr1 e h
    · simp only [List.mem_singleton] at h
      subst h
      rfl
  · unfold Settle
    rw [hV]
    simp only []
    rw [hA]
    simp only []
    rw [hhex]
    simp only []
    rw [hparse]
    simp only []
    simp only [settleAfterParse]
    rw [if_pos ⟨hfac, hcd⟩]
    rw [hcode]
    simp only []
    rw [if_pos (by simp)]
    rw [if_pos trivial]
    simp only [deploySmartWallet]
    rw [hsend]
    simp only []
    rw [hrcpt]
    simp only []
    rw [if_pos (show (0 : Nat) ≠ TxStatusSuccess by simp [TxStatusSuccess])]

set_option maxRecDepth 8000 in
/-- C7 witness: the concrete wrapped-signature payload verifies, and
Settle behaves as claimed in both deploy-on-settle modes against the
reverting-receipt oracle. -/
theorem C7_deploy_on_settle_witness :
    (Settle cmW foRevertW false [] payload6492W reqW =
      (Except.error ⟨ErrUndeployedSmartWallet, addrW, "eip155:8453", "",
        none⟩, [],
       [CallEvt.getCode addrW, CallEvt.getCode addrW,
        CallEvt.getCode addrW])) ∧
    (∀ e ∈ (Settle cmW foRevertW false [] payload6492W reqW).2.2,
      readOnlyEvt e = true) ∧
    (Settle cmW foRevertW true [] payload6492W reqW =
      (Except.error ⟨ErrSmartWalletDeploymentFailed, addrW, "eip155:8453",
        "", some "deployment transaction reverted"⟩, [],
       [CallEvt.getCode addrW, CallEvt.getCode addrW, CallEvt.getCode addrW,
        CallEvt.sendTx (addrToHexString factoryW) calldataW,
        CallEvt.waitReceipt "0xdeploytx"])) :=
  C7_deploy_on_settle cmW foRevertW [] [] payload6492W reqW ⟨true, addrW⟩
    [CallEvt.getCode addrW, CallEvt.getCode addrW] usdcBase wsigW
    ⟨factoryW, calldataW, innerW⟩ "0xdeploytx" 10 "0xdeploytx"
    (by rfl) rfl (by rfl) (by rfl) (by decide) (by decide) rfl rfl rfl


/-- C8: on a cache miss, the capability probe runs the simulated
transferWithAuthorization once and stores its classification under the
key built from the decimal chain id and the lowercased token address;
the token is classified supported iff the simulation succeeds or fails
with a message containing signature, authorization or nonce
case-insensitively; and any later call for the same key (with any probe
function and from-address) returns the cached boolean with no further
probing. -/
theorem C8_probe_classification_memoization (probe probe2 : String → String → Option String)
    (cache : SupportCache) (chainId : Int) (fromA fromA2 token : String)
    (hmiss : cache.lookup (cacheKey chainId token) = none) :
    VerifyEIP3009Support probe cache chainId fromA token
      = (classifyProbeOutcome (probe fromA token),
         (cacheKey chainId token, classifyProbeOutcome (probe fromA token))
           :: cache,
         [CallEvt.probe3009 token]) ∧
    (classifyProbeOutcome (probe fromA token) = true ↔
      (probe fromA token = none ∨
       ∃ msg, probe fromA token = some msg ∧
         (strContains (lowerStr msg) "signature" = true ∨
          strContains (lowerStr msg) "authorization" = true ∨
          strContains (lowerStr msg) "nonce" = true))) ∧
    (VerifyEIP3009Support probe2
        ((cacheKey chainId token, classifyProbeOutcome (probe fromA token))
          :: cache) chainId fromA2 token
      = (classifyProbeOutcome (probe fromA token),
         (cacheKey chainId token, classifyProbeOutcome (probe fromA token))
           :: cache, [])) := by
  refine ⟨?_, ?_, ?_⟩
  · simp only [VerifyEIP3009Support]
    rw [hmiss]
  · unfold classifyProbeOutcome
    rcases probe fromA token with _ | msg <;> simp [Bool.or_eq_true, or_assoc]
  · simp only [VerifyEIP3009Support, List.lookup]
    rw [beq_self_eq_true]

/-- C8 witness: a probe failing with the message invalid signature
provided is classified supported and cached for chain 8453, and a second
call with a different probe function and from-address returns the cached
value without a probe event. -/
theorem C8_probe_classification_memoization_witness :
    VerifyEIP3009Support (fun _ _ => some "invalid signature provided") []
        8453 addrW erc20AssetW
      = (true, [(cacheKey 8453 erc20AssetW, true)],
         [CallEvt.probe3009 erc20AssetW]) ∧
    (classifyProbeOutcome (some "invalid signature provided") = true ↔
      ((some "invalid signature provided" : Option String) = none ∨
       ∃ msg, (some "invalid signature provided" : Option String) = some msg ∧
         (strContains (lowerStr msg) "signature" = true ∨
          strContains (lowerStr msg) "authorization" = true ∨
          strContains (lowerStr msg) "nonce" = true))) ∧
    (VerifyEIP3009Support (fun _ _ => none)
        [(cacheKey 8453 erc20AssetW, true)] 8453 payToW erc20AssetW
      = (true, [(cacheKey 8453 erc20AssetW, true)], [])) :=
  C8_probe_classification_memoization (fun _ _ => some "invalid signature provided") (fun _ _ => none)
    [] 8453 addrW payToW erc20AssetW rfl


/-- In the ERC-20 client flow (static flag off, probe cached false),
CreatePaymentPayload reduces to the approve-if-needed step followed by
signing the tokenTransferWithAuthorization typed data. -/
theorem erc20_flow_reduction (cs : ClientSigner) (cache : SupportCache)
    (req : PaymentRequirements) (nonce : String) (now : Int)
    (config : NetworkConfig) (assetInfo : AssetInfo) (v : Int)
    (hnet : IsValidNetwork req.network = true)
    (hcfg : GetNetworkConfig req.network = Except.ok config)
    (hasset : GetAssetInfo req.network req.asset = Except.ok assetInfo)
    (hamt : parseBigInt req.amount = some v)
    (hstatic : assetInfo.supportsEIP3009 = false)
    (hcached : cache.lookup (cacheKey config.chainId assetInfo.address)
      = some false) :
    CreatePaymentPayload cs cache req nonce now =
      (match approveIfNeeded cs assetInfo.address v with
       | (Except.error e, tr2) => (Except.error e, cache, tr2)
       | (Except.ok _, tr2) =>
         match cs.signTypedData
             (c9TypedData cs req config assetInfo v now nonce) with
         | Except.error e =>
           (Except.error ("failed to sign authorization: " ++ e), cache, tr2)
         | Except.ok sig =>
           (Except.ok ⟨2, erc20ToMap ⟨⟨'0' :: 'x' :: hexEncodeL sig⟩,
             ⟨assetInfo.address, cs.address, req.payTo, decStr v,
              decStr (now - 30), decStr (now + 3600), nonce, true⟩⟩
             (some "authorization")⟩, cache, tr2)) := by
  simp only [CreatePaymentPayload]
  rw [if_neg (by simp [hnet])]
  rw [hcfg]
  simp only []
  rw [hasset]
  simp only []
  rw [hamt]
  simp only []
  rw [hstatic]
  have hves : VerifyEIP3009Support cs.probe cache config.chainId cs.address
      assetInfo.address = (false, cache, []) := by
    simp only [VerifyEIP3009Support]
    rw [hcached]
  rw [hves]
  rw [show (if (false = true) then
      ((true, cache, []) : Bool × SupportCache × List CallEvt)
    else (false, cache, [])) = (false, cache, []) from by simp]
  simp only []
  rw [if_neg (by simp)]
  rcases happI : approveIfNeeded cs assetInfo.address v with ⟨res, tr2⟩
  rcases res with e | u <;> simp only [c9TypedData] <;>
    rcases hsig2 : cs.signTypedData (clientERC20TypedData
      ⟨assetInfo.address, cs.address, req.payTo, decStr v, decStr (now - 30),
       decStr (now + 3600), nonce, true⟩ config.chainId
      FacilitatorContractAddress) with e2 | sig2 <;>
    simp [hsig2]

/-- approveIfNeeded with a known allowance: approve exactly when the
allowance is strictly below the value, blocking on the receipt. -/
theorem approveIfNeeded_reduction (cs : ClientSigner) (token : String)
    (v al : Int)
    (hallow : cs.readAllowance token cs.address FacilitatorContractAddress
      = Except.ok al) :
    approveIfNeeded cs token v =
      (if al < v then
        match cs.writeApprove token FacilitatorContractAddress v with
        | Except.error e =>
          (Except.error ("failed to send approve transaction: " ++ e),
           [CallEvt.readAllowance token cs.address FacilitatorContractAddress,
            CallEvt.writeApprove token FacilitatorContractAddress v])
        | Except.ok txHash =>
          match cs.waitForReceipt txHash with
          | Except.error e =>
            (Except.error ("failed to wait for approve receipt: " ++ e),
             [CallEvt.readAllowance token cs.address
                FacilitatorContractAddress,
              CallEvt.writeApprove token FacilitatorContractAddress v,
              CallEvt.waitReceipt txHash])
          | Except.ok receipt =>
            if receipt.status = 0 then
              (Except.error "approve transaction failed",
               [CallEvt.readAllowance token cs.address
                  FacilitatorContractAddress,
                CallEvt.writeApprove token FacilitatorContractAddress v,
                CallEvt.waitReceipt txHash])
            else
              (Except.ok (),
               [CallEvt.readAllowance token cs.address
                  FacilitatorContractAddress,
                CallEvt.writeApprove token FacilitatorContractAddress v,
                CallEvt.waitReceipt txHash])
      else
        (Except.ok (),
         [CallEvt.readAllowance token cs.address
            FacilitatorContractAddress])) := by
  simp only [approveIfNeeded]
  rw [hallow]
  simp only [List.cons_append, List.nil_append]

/-- C9: in the client's ERC-20 flow, the allowance of the facilitator
contract is read and an approve(facilitatorContract, amount) transaction
appears in the trace iff the allowance is strictly below the amount; a
reverted approve receipt (status 0) aborts with an error; otherwise the
client signs the tokenTransferWithAuthorization typed data (whose domain
is the hardcoded Facilitator, version 1, chain id and facilitator
contract, by definition of c9TypedData) and emits a payload whose type
tag is authorization. -/
theorem C9_erc20_allowance_approve_flow (cs : ClientSigner) (cache : SupportCache)
    (req : PaymentRequirements) (nonce : String) (now : Int)
    (config : NetworkConfig) (assetInfo : AssetInfo) (v al : Int)
    (hnet : IsValidNetwork req.network = true)
    (hcfg : GetNetworkConfig req.network = Except.ok config)
    (hasset : GetAssetInfo req.network req.asset = Except.ok assetInfo)
    (hamt : parseBigInt req.amount = some v)
    (hstatic : assetInfo.supportsEIP3009 = false)
    (hcached : cache.lookup (cacheKey config.chainId assetInfo.address)
      = some false)
    (hallow : cs.readAllowance assetInfo.address cs.address
      FacilitatorContractAddress = Except.ok al) :
    (CallEvt.writeApprove assetInfo.address FacilitatorContractAddress v
        ∈ (CreatePaymentPayload cs cache req nonce now).2.2 ↔ al < v) ∧
    (al < v → ∀ tx receipt,
      cs.writeApprove assetInfo.address FacilitatorContractAddress v
        = Except.ok tx →
      cs.waitForReceipt tx = Except.ok receipt →
      receipt.status = 0 →
      CreatePaymentPayload cs cache req nonce now
        = (Except.error "approve transaction failed", cache,
           [CallEvt.readAllowance assetInfo.address cs.address
              FacilitatorContractAddress,
            CallEvt.writeApprove assetInfo.address
              FacilitatorContractAddress v,
            CallEvt.waitReceipt tx])) ∧
    (¬ al < v → ∀ sig,
      cs.signTypedData (c9TypedData cs req config assetInfo v now nonce)
        = Except.ok sig →
      CreatePaymentPayload cs cache req nonce now
        = (Except.ok ⟨2, erc20ToMap ⟨⟨'0' :: 'x' :: hexEncodeL sig⟩,
            ⟨assetInfo.address, cs.address, req.payTo, decStr v,
             decStr (now - 30), decStr (now + 3600), nonce, true⟩⟩
            (some "authorization")⟩, cache,
           [CallEvt.readAllowance assetInfo.address cs.address
              FacilitatorContractAddress])) ∧
    (al < v → ∀ tx receipt sig,
      cs.writeApprove assetInfo.address FacilitatorContractAddress v
        = Except.ok tx →
      cs.waitForReceipt tx = Except.ok receipt →
      receipt.status ≠ 0 →
      cs.signTypedData (c9TypedData cs req config assetInfo v now nonce)
        = Except.ok sig →
      CreatePaymentPayload cs cache req nonce now
        = (Except.ok ⟨2, erc20ToMap ⟨⟨'0' :: 'x' :: hexEncodeL sig⟩,
            ⟨assetInfo.address, cs.address, req.payTo, decStr v,
             decStr (now - 30), decStr (now + 3600), nonce, true⟩⟩
            (some "authorization")⟩, cache,
           [CallEvt.readAllowance assetInfo.address cs.address
              FacilitatorContractAddress,
            CallEvt.writeApprove assetInfo.address
              FacilitatorContractAddress v,
            CallEvt.waitReceipt tx])) := by
  have hred := erc20_flow_reduction cs cache req nonce now config assetInfo v
    hnet hcfg hasset hamt hstatic hcached
  have happ := approveIfNeeded_reduction cs assetInfo.address v al hallow
  refine ⟨?_, ?_, ?_, ?_⟩
  · rw [hred, happ]
    by_cases hal : al < v
    · rw [if_pos hal]
      simp only [hal, iff_true]
      rcases cs.writeApprove assetInfo.address FacilitatorContractAddress v
          with e | tx <;> simp only []
      · simp
      · rcases cs.waitForReceipt tx with e | receipt <;> simp only []
        · rcases cs.signTypedData
              (c9TypedData cs req config assetInfo v now nonce)
              with e2 | sig <;> simp
        · by_cases hst : receipt.status = 0
          · rw [if_pos hst]
            simp
          · rw [if_neg hst]
            rcases cs.signTypedData
                (c9TypedData cs req config assetInfo v now nonce)
                with e2 | sig <;> simp
    · rw [if_neg hal]
      simp only [hal, iff_false]
      rcases cs.signTypedData
          (c9TypedData cs req config assetInfo v now nonce)
          with e2 | sig <;> simp
  · intro hal tx receipt hw hwr hst
    rw [hred, happ, if_pos hal, hw]
    simp only []
    rw [hwr]
    simp only []
    rw [if_pos hst]
  · intro hal sig hsig
    rw [hred, happ, if_neg hal]
    simp only []
    rw [hsig]
  · intro hal tx receipt sig hw hwr hst hsig
    rw [hred, happ, if_pos hal, hw]
    simp only []
    rw [hwr]
    simp only []
    rw [if_neg hst]
    simp only []
    rw [hsig]

/-- C9 witness: with a large allowance no approve is issued and the
payload is emitted after the allowance read only; with a small allowance
the approve is issued and a reverted receipt aborts while a successful
receipt leads to the signed authorization payload. -/
theorem C9_erc20_allowance_approve_flow_witness :
    ((CallEvt.writeApprove erc20AssetW FacilitatorContractAddress 1000000
        ∈ (CreatePaymentPayload csHighW cacheERC20W reqERC20W nonceW
            1000).2.2)
      ↔ (2000000 : Int) < 1000000) ∧
    (CreatePaymentPayload csHighW cacheERC20W reqERC20W nonceW 1000
      = (Except.ok ⟨2, erc20ToMap ⟨⟨'0' :: 'x' :: hexEncodeL sigW⟩,
          ⟨erc20AssetW, addrW, payToW, "1000000", "970", "4600", nonceW,
           true⟩⟩ (some "authorization")⟩, cacheERC20W,
         [CallEvt.readAllowance erc20AssetW addrW
            FacilitatorContractAddress])) ∧
    (CreatePaymentPayload csLowRevertW cacheERC20W reqERC20W nonceW 1000
      = (Except.error "approve transaction failed", cacheERC20W,
         [CallEvt.readAllowance erc20AssetW addrW
            FacilitatorContractAddress,
          CallEvt.writeApprove erc20AssetW FacilitatorContractAddress
            1000000,
          CallEvt.waitReceipt "0xapprovetx"])) ∧
    (CreatePaymentPayload csLowOkW cacheERC20W reqERC20W nonceW 1000
      = (Except.ok ⟨2, erc20ToMap ⟨⟨'0' :: 'x' :: hexEncodeL sigW⟩,
          ⟨erc20AssetW, addrW, payToW, "1000000", "970", "4600", nonceW,
           true⟩⟩ (some "authorization")⟩, cacheERC20W,
         [CallEvt.readAllowance erc20AssetW addrW
            FacilitatorContractAddress,
          CallEvt.writeApprove erc20AssetW FacilitatorContractAddress
            1000000,
          CallEvt.waitReceipt "0xapprovetx"])) := by
  refine ⟨?_, ?_, ?_, ?_⟩
  · exact (C9_erc20_allowance_approve_flow csHighW cacheERC20W reqERC20W nonceW 1000
      ⟨8453, usdcBase, [("USDC", usdcBase)]⟩
      ⟨erc20AssetW, "Unknown Token", "1", 18, false⟩ 1000000 2000000
      rfl rfl (by rfl) (by decide) rfl (by decide) rfl).1
  · exact (C9_erc20_allowance_approve_flow csHighW cacheERC20W reqERC20W nonceW 1000
      ⟨8453, usdcBase, [("USDC", usdcBase)]⟩
      ⟨erc20AssetW, "Unknown Token", "1", 18, false⟩ 1000000 2000000
      rfl rfl (by rfl) (by decide) rfl (by decide) rfl).2.2.1
      (by decide) sigW rfl
  · exact (C9_erc20_allowance_approve_flow csLowRevertW cacheERC20W reqERC20W nonceW 1000
      ⟨8453, usdcBase, [("USDC", usdcBase)]⟩
      ⟨erc20AssetW, "Unknown Token", "1", 18, false⟩ 1000000 5
      rfl rfl (by rfl) (by decide) rfl (by decide) rfl).2.1
      (by decide) "0xapprovetx" ⟨0, 7, "0xapprovetx"⟩ rfl rfl rfl
  · exact (C9_erc20_allowance_approve_flow csLowOkW cacheERC20W reqERC20W nonceW 1000
      ⟨8453, usdcBase, [("USDC", usdcBase)]⟩
      ⟨erc20AssetW, "Unknown Token", "1", 18, false⟩ 1000000 5
      rfl rfl (by rfl) (by decide) rfl (by decide) rfl).2.2.2
      (by decide) "0xapprovetx" ⟨1, 7, "0xapprovetx"⟩ sigW rfl rfl
      (by decide) rfl


/-- C10: every payload the client scheme returns without error has
X402Version 2 and a payload map whose type key is present and equal to
authorizationEip3009 or authorization, so the facilitator's fallback
probe in the type dispatcher is never exercised on payloads produced by
this client. -/
theorem C10_client_payload_always_typed (cs : ClientSigner) (cache : SupportCache)
    (req : PaymentRequirements) (nonce : String) (now : Int)
    (base : SchemePayload) (cache2 : SupportCache) (tr : List CallEvt)
    (h : CreatePaymentPayload cs cache req nonce now
      = (Except.ok base, cache2, tr)) :
    base.x402Version = 2 ∧
    (base.payload.typeTag = some "authorizationEip3009" ∨
     base.payload.typeTag = some "authorization") := by
  simp only [CreatePaymentPayload] at h
  repeat' split at h
  all_goals simp_all [eip3009ToMap, erc20ToMap]
  all_goals (rcases h with ⟨hb, _⟩; subst hb; simp [eip3009ToMap, erc20ToMap])

/-- C10 witness: the concrete payload the client produces for one USDC
on Base is version 2 and tagged authorizationEip3009. -/
theorem C10_client_payload_always_typed_witness :
    baseW.x402Version = 2 ∧
    (baseW.payload.typeTag = some "authorizationEip3009" ∨
     baseW.payload.typeTag = some "authorization") :=
  C10_client_payload_always_typed csW [] reqW nonceW 1000 baseW [] [] (by rfl)

end X402
